import Mathlib

set_option maxRecDepth 10000

/-!
Verification development for the AQ bytecode virtual machine
(reference C implementation, single translation unit).

The development shallowly embeds the interpreter:
* the data segment is a list of byte values (`Nat`, each `< 256` in practice),
  and the nibble-packed type-tag segment is a second list of bytes;
* C machine integers are modelled as `Int` with explicit two's-complement
  wrapping (`wrapBits` / `toSigned`) at every point where the C code
  truncates or stores;
* C `float` / `double` values are modelled as exact dyadic rationals via the
  `Frac` type, with IEEE-754 round-to-nearest-even applied by
  `encIEEE` at every point where the C code performs a floating-point
  operation or store.  `NaN` and infinities are outside the scope of the
  claims and decode to 0;
* host pointers (heap addresses produced by `malloc`, `data + i` addresses)
  are not interpretable in a shallow embedding; the model stores a 64-bit
  number for them and treats stores through such pointers (`STORE`) as
  writes outside the modelled memory triple.
-/

namespace AQ

/-! ### Byte-level utilities -/

/-- Power of two via shift, so that large exponents reduce in the kernel. -/
def pow2 (k : Nat) : Nat := Nat.shiftLeft 1 k

/-- Read a byte from a list, 0 beyond the end (the C code would read
whatever memory follows; the claims only exercise in-bounds reads). -/
def lbGet (l : List Nat) (i : Nat) : Nat := l.getD i 0

/-- Little-endian byte encoding of `n`, exactly `w` bytes. -/
def bytesLE : Nat → Nat → List Nat
  | 0, _ => []
  | w + 1, n => (n % 256) :: bytesLE w (n / 256)

/-- Little-endian byte decoding. -/
def natOfBytesLE : List Nat → Nat
  | [] => 0
  | b :: t => b % 256 + 256 * natOfBytesLE t

/-- Read `w` consecutive bytes starting at offset `i`. -/
def readBytes (d : List Nat) (i w : Nat) : List Nat :=
  (List.range w).map (fun j => lbGet d (i + j))

/-- Overwrite bytes `[i, i + bs.length)` of `d` with `bs`, clamped to the
extent of `d` (a `memcpy` into the buffer; the modelled buffer keeps its
length). -/
def writeBytes (d : List Nat) (i : Nat) (bs : List Nat) : List Nat :=
  (List.range d.length).map
    (fun j => if i ≤ j ∧ j < i + bs.length then lbGet bs (j - i) else lbGet d j)

/-- Two's-complement bit pattern of width `w` bits for an integer. -/
def wrapBits (w : Nat) (x : Int) : Nat := (x % ((pow2 w : Nat) : Int)).toNat

/-- Signed interpretation of a `w`-bit pattern. -/
def toSigned (w : Nat) (n : Nat) : Int :=
  let m := n % pow2 w
  if m < pow2 (w - 1) then (m : Int) else (m : Int) - ((pow2 w : Nat) : Int)

/-- Conversion of an integer value to a narrower signed C integer type of
`w` bits (the implementation-defined modular behaviour of gcc). -/
def sIntOf (w : Nat) (x : Int) : Int := toSigned w (wrapBits w x)

/-! ### Exact dyadic/rational values for the floating-point model

`Frac` is an unnormalised fraction `num / den` with `den > 0` maintained by
all constructors.  Every C `float`/`double` value is a `Frac`; every C
floating-point operation first computes the exact rational result and then
rounds it with `encIEEE`/`decIEEE`, which is exactly the IEEE-754
round-to-nearest-even semantics for finite, non-overflowing results. -/

structure Frac where
  num : Int
  den : Nat
  deriving DecidableEq

def fofInt (i : Int) : Frac := ⟨i, 1⟩

def fzero : Frac := ⟨0, 1⟩

def fneg (a : Frac) : Frac := ⟨-a.num, a.den⟩

def fadd (a b : Frac) : Frac := ⟨a.num * b.den + b.num * a.den, a.den * b.den⟩

def fsub (a b : Frac) : Frac := fadd a (fneg b)

def fmul (a b : Frac) : Frac := ⟨a.num * b.num, a.den * b.den⟩

/-- Exact rational division; division by zero yields 0 (the C double
division by zero produces an infinity, which is outside the claims). -/
def fdivF (a b : Frac) : Frac :=
  if b.num = 0 then fzero
  else if b.num < 0 then ⟨-(a.num * b.den), a.den * b.num.natAbs⟩
  else ⟨a.num * b.den, a.den * b.num.natAbs⟩

def fabs (a : Frac) : Frac := ⟨(a.num.natAbs : Int), a.den⟩

/-- Value-level comparison (well-defined because denominators are positive). -/
def fltB (a b : Frac) : Bool := a.num * b.den < b.num * a.den

def fleB (a b : Frac) : Bool := decide (a.num * b.den ≤ b.num * a.den)

def feqB (a b : Frac) : Bool := a.num * b.den == b.num * a.den

/-- Floor of the value. -/
def ffloor (a : Frac) : Int := Int.fdiv a.num a.den

/-- Truncation toward zero (the C float→integer conversion). -/
def ftrunc (a : Frac) : Int := Int.tdiv a.num a.den

/-- Round to nearest integer, ties to even. -/
def froundEven (a : Frac) : Int :=
  let f := ffloor a
  let t : Int := 2 * (a.num - f * a.den)
  if t < (a.den : Int) then f
  else if (a.den : Int) < t then f + 1
  else if f % 2 = 0 then f else f + 1

/-- Multiply by `2 ^ e` for a signed exponent. -/
def fmul2z (a : Frac) (e : Int) : Frac :=
  if 0 ≤ e then ⟨a.num * ((pow2 e.toNat : Nat) : Int), a.den⟩
  else ⟨a.num, a.den * pow2 (-e).toNat⟩

/-- Number of bits of `n` (`⌊log2 n⌋ + 1` for `n ≥ 1`), by fuel so that it
reduces in the kernel. -/
def bitLenAux : Nat → Nat → Nat
  | 0, _ => 0
  | fuel + 1, n => if n = 0 then 0 else 1 + bitLenAux fuel (n / 2)

def bitLen (n : Nat) : Nat := bitLenAux n n

/-- Decide `2 ^ e ≤ a`. -/
def fle2pow (e : Int) (a : Frac) : Bool :=
  if 0 ≤ e then decide (((pow2 e.toNat : Nat) : Int) * a.den ≤ a.num)
  else decide ((a.den : Int) ≤ a.num * ((pow2 (-e).toNat : Nat) : Int))

/-- Binary exponent of a positive value: the unique `e` with
`2 ^ e ≤ a < 2 ^ (e + 1)`.  The bit-length estimate is within one of the
true exponent; the comparisons pin it down. -/
def flog2 (a : Frac) : Int :=
  let e0 : Int := ((bitLen a.num.natAbs : Int) - 1) - ((bitLen a.den : Int) - 1)
  if fle2pow (e0 + 1) a then e0 + 1
  else if fle2pow e0 a then e0
  else e0 - 1

/-! ### IEEE-754 encode/decode

Generic over the exponent/mantissa field widths: `(8, 23)` is binary32
(C `float`), `(11, 52)` is binary64 (C `double`). -/

/-- Round a real (rational) value to the nearest representable IEEE value
and return its bit pattern.  Overflow goes to the infinity pattern;
`NaN` cannot arise from a rational input. -/
def encIEEE (ebits mbits : Nat) (q : Frac) : Nat :=
  if q.num = 0 then 0
  else
    let bias : Int := (pow2 (ebits - 1) : Nat) - 1
    let sgn : Nat := if q.num < 0 then pow2 (ebits + mbits) else 0
    let a : Frac := fabs q
    let e : Int := flog2 a
    let emin : Int := 1 - bias
    let ec : Int := if e < emin then emin else e
    let msig : Int := froundEven (fmul2z a ((mbits : Int) - ec))
    if msig = 0 then sgn
    else if ((pow2 (mbits + 1) : Nat) : Int) ≤ msig then
      if bias < ec + 1 then sgn + (pow2 ebits - 1) * pow2 mbits
      else sgn + (ec + 1 + bias).toNat * pow2 mbits
    else if msig < ((pow2 mbits : Nat) : Int) then sgn + msig.toNat
    else if bias < ec then sgn + (pow2 ebits - 1) * pow2 mbits
    else sgn + (ec + bias).toNat * pow2 mbits + (msig.toNat - pow2 mbits)

/-- Value of an IEEE bit pattern.  Infinities and NaNs (all-ones exponent
field) are outside the claims and are modelled as 0. -/
def decIEEE (ebits mbits : Nat) (bits : Nat) : Frac :=
  let mf : Nat := bits % pow2 mbits
  let ef : Nat := bits / pow2 mbits % pow2 ebits
  let neg : Bool := bits / pow2 (ebits + mbits) % 2 = 1
  let bias : Int := (pow2 (ebits - 1) : Nat) - 1
  if ef = pow2 ebits - 1 then fzero
  else
    let mag : Frac :=
      if ef = 0 then fmul2z (fofInt (mf : Int)) (1 - bias - (mbits : Int))
      else fmul2z (fofInt ((pow2 mbits + mf : Nat) : Int)) ((ef : Int) - bias - (mbits : Int))
    if neg then fneg mag else mag

def encF32 (q : Frac) : Nat := encIEEE 8 23 q

def encF64 (q : Frac) : Nat := encIEEE 11 52 q

def decF32 (bits : Nat) : Frac := decIEEE 8 23 bits

def decF64 (bits : Nat) : Frac := decIEEE 11 52 bits

/-- Round-to-nearest `float` value of a rational (a C conversion to
`float`, or the result of a `float` arithmetic operation). -/
def roundF32 (q : Frac) : Frac := decF32 (encF32 q)

/-- Round-to-nearest `double` value of a rational. -/
def roundF64 (q : Frac) : Frac := decF64 (encF64 q)

/-! ### Tagged memory (C `struct Memory` and its accessors)

`struct Memory { uint8_t* type; void* data; size_t size; }`.  The nibble
of slot `i` lives in byte `i / 2` of `type`: high nibble for even `i`,
low nibble for odd `i`. -/

structure Memory where
  type : List Nat
  data : List Nat
  size : Nat
  deriving DecidableEq

/-- C `GetType`: nibble lookup (`& 0x0F` for odd index, `(& 0xF0) >> 4`
for even index). -/
def GetType (m : Memory) (index : Nat) : Nat :=
  if index % 2 ≠ 0 then lbGet m.type (index / 2) % 16
  else lbGet m.type (index / 2) / 16 % 16

/-- C `WriteData`: `memcpy` of the given bytes into `data + index`. -/
def WriteData (m : Memory) (index : Nat) (bs : List Nat) : Memory :=
  { m with data := writeBytes m.data index bs }

/-- C `GET_SIZE` macro, verbatim: note the duplicated `(x) == 0x02` arm,
which makes the `8` unreachable and maps tag 5 to the default 0. -/
def GET_SIZE (x : Nat) : Nat :=
  if x = 0x00 then 0
  else if x = 0x01 then 1
  else if x = 0x02 then 4
  else if x = 0x03 then 8
  else if x = 0x04 then 4
  else if x = 0x02 then 8
  else 0

/-- Raw `w`-byte little-endian signed integer at offset `i`. -/
def readInt (m : Memory) (i w : Nat) : Int :=
  toSigned (8 * w) (natOfBytesLE (readBytes m.data i w))

/-- IEEE binary32 value stored at offset `i`. -/
def readF32 (m : Memory) (i : Nat) : Frac :=
  decF32 (natOfBytesLE (readBytes m.data i 4))

/-- IEEE binary64 value stored at offset `i`. -/
def readF64 (m : Memory) (i : Nat) : Frac :=
  decF64 (natOfBytesLE (readBytes m.data i 8))

/-- C `GetPtrData`: reads a machine word (modelled as its 64-bit pattern). -/
def GetPtrData (m : Memory) (index : Nat) : Nat :=
  natOfBytesLE (readBytes m.data index 8)

/-- C `GetByteData`: reads the slot at its tagged width and converts the
value to `int8_t`. -/
def GetByteData (m : Memory) (index : Nat) : Int :=
  if GetType m index = 0x01 then readInt m index 1
  else if GetType m index = 0x02 then sIntOf 8 (readInt m index 4)
  else if GetType m index = 0x03 then sIntOf 8 (readInt m index 8)
  else if GetType m index = 0x04 then sIntOf 8 (ftrunc (readF32 m index))
  else if GetType m index = 0x05 then sIntOf 8 (ftrunc (readF64 m index))
  else 0

/-- C `GetIntData`: reads the slot at its tagged width and converts to
`int` (32-bit). -/
def GetIntData (m : Memory) (index : Nat) : Int :=
  if GetType m index = 0x01 then readInt m index 1
  else if GetType m index = 0x02 then readInt m index 4
  else if GetType m index = 0x03 then sIntOf 32 (readInt m index 8)
  else if GetType m index = 0x04 then sIntOf 32 (ftrunc (readF32 m index))
  else if GetType m index = 0x05 then sIntOf 32 (ftrunc (readF64 m index))
  else 0

/-- C `GetLongData`: reads the slot at its tagged width and converts to
`long` (64-bit). -/
def GetLongData (m : Memory) (index : Nat) : Int :=
  if GetType m index = 0x01 then readInt m index 1
  else if GetType m index = 0x02 then readInt m index 4
  else if GetType m index = 0x03 then readInt m index 8
  else if GetType m index = 0x04 then sIntOf 64 (ftrunc (readF32 m index))
  else if GetType m index = 0x05 then sIntOf 64 (ftrunc (readF64 m index))
  else 0

/-- C `GetFloatData`: reads the slot at its tagged width and converts to
`float` (rounding integer values to binary32). -/
def GetFloatData (m : Memory) (index : Nat) : Frac :=
  if GetType m index = 0x01 then roundF32 (fofInt (readInt m index 1))
  else if GetType m index = 0x02 then roundF32 (fofInt (readInt m index 4))
  else if GetType m index = 0x03 then roundF32 (fofInt (readInt m index 8))
  else if GetType m index = 0x04 then readF32 m index
  else if GetType m index = 0x05 then roundF32 (readF64 m index)
  else fzero

/-- C `GetDoubleData`: reads the slot at its tagged width and converts to
`double` (a binary32 value converts exactly). -/
def GetDoubleData (m : Memory) (index : Nat) : Frac :=
  if GetType m index = 0x01 then roundF64 (fofInt (readInt m index 1))
  else if GetType m index = 0x02 then roundF64 (fofInt (readInt m index 4))
  else if GetType m index = 0x03 then roundF64 (fofInt (readInt m index 8))
  else if GetType m index = 0x04 then readF32 m index
  else if GetType m index = 0x05 then readF64 m index
  else fzero

/-- C `SetPtrData`: stores a machine word. -/
def SetPtrData (m : Memory) (index : Nat) (p : Nat) : Memory :=
  WriteData m index (bytesLE 8 p)

/-- C `SetByteData`: stores an `int8_t` value converted to the tagged
width of the destination slot. -/
def SetByteData (m : Memory) (index : Nat) (v : Int) : Memory :=
  if GetType m index = 0x01 then WriteData m index (bytesLE 1 (wrapBits 8 v))
  else if GetType m index = 0x02 then WriteData m index (bytesLE 4 (wrapBits 32 v))
  else if GetType m index = 0x03 then WriteData m index (bytesLE 8 (wrapBits 64 v))
  else if GetType m index = 0x04 then WriteData m index (bytesLE 4 (encF32 (fofInt v)))
  else if GetType m index = 0x05 then WriteData m index (bytesLE 8 (encF64 (fofInt v)))
  else m

/-- C `SetIntData`: stores an `int` value converted to the tagged width. -/
def SetIntData (m : Memory) (index : Nat) (v : Int) : Memory :=
  if GetType m index = 0x01 then WriteData m index (bytesLE 1 (wrapBits 8 v))
  else if GetType m index = 0x02 then WriteData m index (bytesLE 4 (wrapBits 32 v))
  else if GetType m index = 0x03 then WriteData m index (bytesLE 8 (wrapBits 64 v))
  else if GetType m index = 0x04 then WriteData m index (bytesLE 4 (encF32 (fofInt v)))
  else if GetType m index = 0x05 then WriteData m index (bytesLE 8 (encF64 (fofInt v)))
  else m

/-- C `SetLongData`: stores a `long` value converted to the tagged width. -/
def SetLongData (m : Memory) (index : Nat) (v : Int) : Memory :=
  if GetType m index = 0x01 then WriteData m index (bytesLE 1 (wrapBits 8 v))
  else if GetType m index = 0x02 then WriteData m index (bytesLE 4 (wrapBits 32 v))
  else if GetType m index = 0x03 then WriteData m index (bytesLE 8 (wrapBits 64 v))
  else if GetType m index = 0x04 then WriteData m index (bytesLE 4 (encF32 (fofInt v)))
  else if GetType m index = 0x05 then WriteData m index (bytesLE 8 (encF64 (fofInt v)))
  else m

/-- C `SetFloatData`: stores a `float` value converted to the tagged width. -/
def SetFloatData (m : Memory) (index : Nat) (v : Frac) : Memory :=
  if GetType m index = 0x01 then WriteData m index (bytesLE 1 (wrapBits 8 (ftrunc v)))
  else if GetType m index = 0x02 then WriteData m index (bytesLE 4 (wrapBits 32 (ftrunc v)))
  else if GetType m index = 0x03 then WriteData m index (bytesLE 8 (wrapBits 64 (ftrunc v)))
  else if GetType m index = 0x04 then WriteData m index (bytesLE 4 (encF32 v))
  else if GetType m index = 0x05 then WriteData m index (bytesLE 8 (encF64 v))
  else m

/-- C `SetDoubleData`: stores a `double` value converted to the tagged width. -/
def SetDoubleData (m : Memory) (index : Nat) (v : Frac) : Memory :=
  if GetType m index = 0x01 then WriteData m index (bytesLE 1 (wrapBits 8 (ftrunc v)))
  else if GetType m index = 0x02 then WriteData m index (bytesLE 4 (wrapBits 32 (ftrunc v)))
  else if GetType m index = 0x03 then WriteData m index (bytesLE 8 (wrapBits 64 (ftrunc v)))
  else if GetType m index = 0x04 then WriteData m index (bytesLE 4 (encF32 v))
  else if GetType m index = 0x05 then WriteData m index (bytesLE 8 (encF64 v))
  else m

/-! ### The ULEB-255 operand decoder (C `Get1Parament`)

The C loop scans bytes while they equal 255; on the first byte `< 255`
it stores `255 * size + byte` and returns the pointer one past that
terminal byte.  Reads past the end of the list see 0 (a terminal byte);
in C such a read would fall off the code buffer. -/

def scanOperand : List Nat → Nat → Nat × Nat
  | [], k => (255 * k, k + 1)
  | b :: rest, k => if b < 255 then (255 * k + b, k + 1) else scanOperand rest (k + 1)

/-- Decode one operand of the instruction stream at position `pos`:
returns the decoded value and the number of bytes consumed. -/
def decodeOp (code : List Nat) (pos : Nat) : Nat × Nat :=
  scanOperand (code.drop pos) 0

/-- Spec-modelled ULEB-255 encoder.  Modelled from the spec: the encoder
lives in the compiler, which is not part of `src/`; the spec defines the
encoding as `⌊v / 255⌋` bytes `0xFF` followed by the terminal byte
`v % 255`. -/
def encodeOperand (v : Nat) : List Nat :=
  List.replicate (v / 255) 255 ++ [v % 255]

/-! ### Arithmetic/logic kernel

Every binary operation in the C source is a chain
`if any tag = 5 … else if any tag = 4 … else if any tag = 3 …` over the
tags of `{result, operand1, operand2}`, and each branch ends in a
`switch (GetType(memory, result))` storing the branch's value with the
destination conversion.  The branch for working type `W` contains exactly
the cases `0x01 .. W` (the higher cases are commented out in the source
and unreachable, since the result tag never exceeds the maximum).  The
`opStore…` helpers below are those switches, verbatim. -/

/-- Destination switch of the `double` branches (cases 1–5). -/
def opStoreDouble (m : Memory) (result : Nat) (v : Frac) : Memory :=
  if GetType m result = 0x01 then WriteData m result (bytesLE 1 (wrapBits 8 (ftrunc v)))
  else if GetType m result = 0x02 then WriteData m result (bytesLE 4 (wrapBits 32 (ftrunc v)))
  else if GetType m result = 0x03 then WriteData m result (bytesLE 8 (wrapBits 64 (ftrunc v)))
  else if GetType m result = 0x04 then WriteData m result (bytesLE 4 (encF32 v))
  else if GetType m result = 0x05 then WriteData m result (bytesLE 8 (encF64 v))
  else m

/-- Destination switch of the `float` branches (cases 1–4). -/
def opStoreFloat (m : Memory) (result : Nat) (v : Frac) : Memory :=
  if GetType m result = 0x01 then WriteData m result (bytesLE 1 (wrapBits 8 (ftrunc v)))
  else if GetType m result = 0x02 then WriteData m result (bytesLE 4 (wrapBits 32 (ftrunc v)))
  else if GetType m result = 0x03 then WriteData m result (bytesLE 8 (wrapBits 64 (ftrunc v)))
  else if GetType m result = 0x04 then WriteData m result (bytesLE 4 (encF32 v))
  else m

/-- Destination switch of the `long` branches (cases 1–3). -/
def opStoreLong (m : Memory) (result : Nat) (v : Int) : Memory :=
  if GetType m result = 0x01 then WriteData m result (bytesLE 1 (wrapBits 8 v))
  else if GetType m result = 0x02 then WriteData m result (bytesLE 4 (wrapBits 32 v))
  else if GetType m result = 0x03 then WriteData m result (bytesLE 8 (wrapBits 64 v))
  else m

/-- Destination switch of the `int` branches (cases 1–2). -/
def opStoreInt (m : Memory) (result : Nat) (v : Int) : Memory :=
  if GetType m result = 0x01 then WriteData m result (bytesLE 1 (wrapBits 8 v))
  else if GetType m result = 0x02 then WriteData m result (bytesLE 4 (wrapBits 32 v))
  else m

/-- Destination switch of the `byte` branches (case 1 only). -/
def opStoreByte (m : Memory) (result : Nat) (v : Int) : Memory :=
  if GetType m result = 0x01 then WriteData m result (bytesLE 1 (wrapBits 8 v))
  else m

/-- C `<<` on a signed integer (the value before the destination wrap).
A negative shift count is undefined behaviour in C; the model shifts by 0. -/
def cShl (x s : Int) : Int := x * ((pow2 s.toNat : Nat) : Int)

/-- C `>>` on a signed integer: gcc's arithmetic (sign-preserving) right
shift, i.e. floor division by `2 ^ s`. -/
def cSar (x s : Int) : Int := Int.fdiv x ((pow2 s.toNat : Nat) : Int)

/-- C bitwise `&` on `w`-bit signed integers. -/
def cAnd (w : Nat) (x y : Int) : Int :=
  toSigned w (Nat.land (wrapBits w x) (wrapBits w y))

/-- C bitwise `|` on `w`-bit signed integers. -/
def cOr (w : Nat) (x y : Int) : Int :=
  toSigned w (Nat.lor (wrapBits w x) (wrapBits w y))

/-- C bitwise `^` on `w`-bit signed integers. -/
def cXor (w : Nat) (x y : Int) : Int :=
  toSigned w (Nat.xor (wrapBits w x) (wrapBits w y))

/-- C `ADD`. -/
def ADD (m : Memory) (result operand1 operand2 : Nat) : Memory :=
  if GetType m result = 0x05 ∨ GetType m operand1 = 0x05 ∨ GetType m operand2 = 0x05 then
    opStoreDouble m result (roundF64 (fadd (GetDoubleData m operand1) (GetDoubleData m operand2)))
  else if GetType m result = 0x04 ∨ GetType m operand1 = 0x04 ∨ GetType m operand2 = 0x04 then
    opStoreFloat m result (roundF32 (fadd (GetFloatData m operand1) (GetFloatData m operand2)))
  else if GetType m result = 0x03 ∨ GetType m operand1 = 0x03 ∨ GetType m operand2 = 0x03 then
    opStoreLong m result (GetLongData m operand1 + GetLongData m operand2)
  else if GetType m result = 0x02 ∨ GetType m operand1 = 0x02 ∨ GetType m operand2 = 0x02 then
    opStoreInt m result (GetIntData m operand1 + GetIntData m operand2)
  else if GetType m result = 0x01 ∨ GetType m operand1 = 0x01 ∨ GetType m operand2 = 0x01 then
    opStoreByte m result (GetByteData m operand1 + GetByteData m operand2)
  else m

/-- C `SUB`. -/
def SUB (m : Memory) (result operand1 operand2 : Nat) : Memory :=
  if GetType m result = 0x05 ∨ GetType m operand1 = 0x05 ∨ GetType m operand2 = 0x05 then
    opStoreDouble m result (roundF64 (fsub (GetDoubleData m operand1) (GetDoubleData m operand2)))
  else if GetType m result = 0x04 ∨ GetType m operand1 = 0x04 ∨ GetType m operand2 = 0x04 then
    opStoreFloat m result (roundF32 (fsub (GetFloatData m operand1) (GetFloatData m operand2)))
  else if GetType m result = 0x03 ∨ GetType m operand1 = 0x03 ∨ GetType m operand2 = 0x03 then
    opStoreLong m result (GetLongData m operand1 - GetLongData m operand2)
  else if GetType m result = 0x02 ∨ GetType m operand1 = 0x02 ∨ GetType m operand2 = 0x02 then
    opStoreInt m result (GetIntData m operand1 - GetIntData m operand2)
  else if GetType m result = 0x01 ∨ GetType m operand1 = 0x01 ∨ GetType m operand2 = 0x01 then
    opStoreByte m result (GetByteData m operand1 - GetByteData m operand2)
  else m

/-- C `MUL`. -/
def MUL (m : Memory) (result operand1 operand2 : Nat) : Memory :=
  if GetType m result = 0x05 ∨ GetType m operand1 = 0x05 ∨ GetType m operand2 = 0x05 then
    opStoreDouble m result (roundF64 (fmul (GetDoubleData m operand1) (GetDoubleData m operand2)))
  else if GetType m result = 0x04 ∨ GetType m operand1 = 0x04 ∨ GetType m operand2 = 0x04 then
    opStoreFloat m result (roundF32 (fmul (GetFloatData m operand1) (GetFloatData m operand2)))
  else if GetType m result = 0x03 ∨ GetType m operand1 = 0x03 ∨ GetType m operand2 = 0x03 then
    opStoreLong m result (GetLongData m operand1 * GetLongData m operand2)
  else if GetType m result = 0x02 ∨ GetType m operand1 = 0x02 ∨ GetType m operand2 = 0x02 then
    opStoreInt m result (GetIntData m operand1 * GetIntData m operand2)
  else if GetType m result = 0x01 ∨ GetType m operand1 = 0x01 ∨ GetType m operand2 = 0x01 then
    opStoreByte m result (GetByteData m operand1 * GetByteData m operand2)
  else m

/-- C `DIV` (integer division truncates toward zero; division by zero is
undefined behaviour in C and yields 0 in the model). -/
def DIV (m : Memory) (result operand1 operand2 : Nat) : Memory :=
  if GetType m result = 0x05 ∨ GetType m operand1 = 0x05 ∨ GetType m operand2 = 0x05 then
    opStoreDouble m result (roundF64 (fdivF (GetDoubleData m operand1) (GetDoubleData m operand2)))
  else if GetType m result = 0x04 ∨ GetType m operand1 = 0x04 ∨ GetType m operand2 = 0x04 then
    opStoreFloat m result (roundF32 (fdivF (GetFloatData m operand1) (GetFloatData m operand2)))
  else if GetType m result = 0x03 ∨ GetType m operand1 = 0x03 ∨ GetType m operand2 = 0x03 then
    opStoreLong m result (Int.tdiv (GetLongData m operand1) (GetLongData m operand2))
  else if GetType m result = 0x02 ∨ GetType m operand1 = 0x02 ∨ GetType m operand2 = 0x02 then
    opStoreInt m result (Int.tdiv (GetIntData m operand1) (GetIntData m operand2))
  else if GetType m result = 0x01 ∨ GetType m operand1 = 0x01 ∨ GetType m operand2 = 0x01 then
    opStoreByte m result (Int.tdiv (GetByteData m operand1) (GetByteData m operand2))
  else m

/-- C `REM` (working types long/int/byte only, as in the source). -/
def REM (m : Memory) (result operand1 operand2 : Nat) : Memory :=
  if GetType m result = 0x03 ∨ GetType m operand1 = 0x03 ∨ GetType m operand2 = 0x03 then
    opStoreLong m result (Int.tmod (GetLongData m operand1) (GetLongData m operand2))
  else if GetType m result = 0x02 ∨ GetType m operand1 = 0x02 ∨ GetType m operand2 = 0x02 then
    opStoreInt m result (Int.tmod (GetIntData m operand1) (GetIntData m operand2))
  else if GetType m result = 0x01 ∨ GetType m operand1 = 0x01 ∨ GetType m operand2 = 0x01 then
    opStoreByte m result (Int.tmod (GetByteData m operand1) (GetByteData m operand2))
  else m

/-- C `NEG` (unary; branch selection over the two tags). -/
def NEG (m : Memory) (result operand1 : Nat) : Memory :=
  if GetType m result = 0x05 ∨ GetType m operand1 = 0x05 then
    opStoreDouble m result (fneg (GetDoubleData m operand1))
  else if GetType m result = 0x04 ∨ GetType m operand1 = 0x04 then
    opStoreFloat m result (fneg (GetFloatData m operand1))
  else if GetType m result = 0x03 ∨ GetType m operand1 = 0x03 then
    opStoreLong m result (-GetLongData m operand1)
  else if GetType m result = 0x02 ∨ GetType m operand1 = 0x02 then
    opStoreInt m result (-GetIntData m operand1)
  else if GetType m result = 0x01 ∨ GetType m operand1 = 0x01 then
    opStoreByte m result (-GetByteData m operand1)
  else m

/-- C `SHL` (working types long/int/byte). -/
def SHL (m : Memory) (result operand1 operand2 : Nat) : Memory :=
  if GetType m result = 0x03 ∨ GetType m operand1 = 0x03 ∨ GetType m operand2 = 0x03 then
    opStoreLong m result (cShl (GetLongData m operand1) (GetLongData m operand2))
  else if GetType m result = 0x02 ∨ GetType m operand1 = 0x02 ∨ GetType m operand2 = 0x02 then
    opStoreInt m result (cShl (GetIntData m operand1) (GetIntData m operand2))
  else if GetType m result = 0x01 ∨ GetType m operand1 = 0x01 ∨ GetType m operand2 = 0x01 then
    opStoreByte m result (cShl (GetByteData m operand1) (GetByteData m operand2))
  else m

/-- C `SHR`: the source uses `>>` on signed operands, i.e. an arithmetic
right shift — identical to `SAR` below. -/
def SHR (m : Memory) (result operand1 operand2 : Nat) : Memory :=
  if GetType m result = 0x03 ∨ GetType m operand1 = 0x03 ∨ GetType m operand2 = 0x03 then
    opStoreLong m result (cSar (GetLongData m operand1) (GetLongData m operand2))
  else if GetType m result = 0x02 ∨ GetType m operand1 = 0x02 ∨ GetType m operand2 = 0x02 then
    opStoreInt m result (cSar (GetIntData m operand1) (GetIntData m operand2))
  else if GetType m result = 0x01 ∨ GetType m operand1 = 0x01 ∨ GetType m operand2 = 0x01 then
    opStoreByte m result (cSar (GetByteData m operand1) (GetByteData m operand2))
  else m

/-- C `SAR`: byte-for-byte the same body as `SHR` in the source. -/
def SAR (m : Memory) (result operand1 operand2 : Nat) : Memory :=
  if GetType m result = 0x03 ∨ GetType m operand1 = 0x03 ∨ GetType m operand2 = 0x03 then
    opStoreLong m result (cSar (GetLongData m operand1) (GetLongData m operand2))
  else if GetType m result = 0x02 ∨ GetType m operand1 = 0x02 ∨ GetType m operand2 = 0x02 then
    opStoreInt m result (cSar (GetIntData m operand1) (GetIntData m operand2))
  else if GetType m result = 0x01 ∨ GetType m operand1 = 0x01 ∨ GetType m operand2 = 0x01 then
    opStoreByte m result (cSar (GetByteData m operand1) (GetByteData m operand2))
  else m

/-- C `AND` (working types long/int/byte). -/
def AND (m : Memory) (result operand1 operand2 : Nat) : Memory :=
  if GetType m result = 0x03 ∨ GetType m operand1 = 0x03 ∨ GetType m operand2 = 0x03 then
    opStoreLong m result (cAnd 64 (GetLongData m operand1) (GetLongData m operand2))
  else if GetType m result = 0x02 ∨ GetType m operand1 = 0x02 ∨ GetType m operand2 = 0x02 then
    opStoreInt m result (cAnd 32 (GetIntData m operand1) (GetIntData m operand2))
  else if GetType m result = 0x01 ∨ GetType m operand1 = 0x01 ∨ GetType m operand2 = 0x01 then
    opStoreByte m result (cAnd 32 (GetByteData m operand1) (GetByteData m operand2))
  else m

/-- C `OR`. -/
def OR (m : Memory) (result operand1 operand2 : Nat) : Memory :=
  if GetType m result = 0x03 ∨ GetType m operand1 = 0x03 ∨ GetType m operand2 = 0x03 then
    opStoreLong m result (cOr 64 (GetLongData m operand1) (GetLongData m operand2))
  else if GetType m result = 0x02 ∨ GetType m operand1 = 0x02 ∨ GetType m operand2 = 0x02 then
    opStoreInt m result (cOr 32 (GetIntData m operand1) (GetIntData m operand2))
  else if GetType m result = 0x01 ∨ GetType m operand1 = 0x01 ∨ GetType m operand2 = 0x01 then
    opStoreByte m result (cOr 32 (GetByteData m operand1) (GetByteData m operand2))
  else m

/-- C `XOR`. -/
def XOR (m : Memory) (result operand1 operand2 : Nat) : Memory :=
  if GetType m result = 0x03 ∨ GetType m operand1 = 0x03 ∨ GetType m operand2 = 0x03 then
    opStoreLong m result (cXor 64 (GetLongData m operand1) (GetLongData m operand2))
  else if GetType m result = 0x02 ∨ GetType m operand1 = 0x02 ∨ GetType m operand2 = 0x02 then
    opStoreInt m result (cXor 32 (GetIntData m operand1) (GetIntData m operand2))
  else if GetType m result = 0x01 ∨ GetType m operand1 = 0x01 ∨ GetType m operand2 = 0x01 then
    opStoreByte m result (cXor 32 (GetByteData m operand1) (GetByteData m operand2))
  else m

/-- C `IF` function: returns `ptr` plus the long value of the taken
branch slot, selected on the byte value of the condition slot. -/
def IF (ptr : Int) (m : Memory) (condition trueBranche falseBranche : Nat) : Int :=
  if GetByteData m condition ≠ 0 then ptr + GetLongData m trueBranche
  else ptr + GetLongData m falseBranche

/-- C `NOP`. -/
def NOP : Nat := 0

/-- C `LOAD`: copies `GET_SIZE(GetType(operand))` bytes from
`data + ptr` to `data + operand`. -/
def LOAD (m : Memory) (ptr operand : Nat) : Memory :=
  WriteData m operand (readBytes m.data ptr (GET_SIZE (GetType m operand)))

/-- C `STORE`: `memcpy` through the machine-word pointer stored at
`data + ptr`.  The target is an arbitrary host address (a guest heap
block); it lies outside the modelled memory triple, so the triple is
unchanged. -/
def STORE (m : Memory) (ptr operand : Nat) : Memory := m

/-- C `NEW`: `malloc` and store of the returned address.  Host addresses
are not interpretable in the model; the modelled address is 0. -/
def NEW (m : Memory) (ptr size : Nat) : Memory :=
  WriteData m ptr (bytesLE 8 0)

/-- C `FREE`: releases the heap block; the memory triple is unchanged. -/
def FREE (m : Memory) (ptr : Nat) : Memory := m

/-- C `PTR`: stores the address `data + index` into slot `ptr`.
Addresses into the data segment are modelled by their offsets. -/
def PTR (m : Memory) (index ptr : Nat) : Memory :=
  SetPtrData m ptr index

/-- C `GOTO` function: returns `ptr` plus the long value at the offset
slot. -/
def GOTO (ptr : Int) (m : Memory) (offset : Nat) : Int :=
  ptr + GetLongData m offset

/-- Destination switch of the `CMP` double branches: the comparison
result is a C `int` 0/1 stored with cases 1–5 (identical in shape to
`SetIntData`). -/
def cmpStore5 (m : Memory) (result : Nat) (v : Int) : Memory :=
  if GetType m result = 0x01 then WriteData m result (bytesLE 1 (wrapBits 8 v))
  else if GetType m result = 0x02 then WriteData m result (bytesLE 4 (wrapBits 32 v))
  else if GetType m result = 0x03 then WriteData m result (bytesLE 8 (wrapBits 64 v))
  else if GetType m result = 0x04 then WriteData m result (bytesLE 4 (encF32 (fofInt v)))
  else if GetType m result = 0x05 then WriteData m result (bytesLE 8 (encF64 (fofInt v)))
  else m

/-- Destination switch of the `CMP` float branches (cases 1–4). -/
def cmpStore4 (m : Memory) (result : Nat) (v : Int) : Memory :=
  if GetType m result = 0x01 then WriteData m result (bytesLE 1 (wrapBits 8 v))
  else if GetType m result = 0x02 then WriteData m result (bytesLE 4 (wrapBits 32 v))
  else if GetType m result = 0x03 then WriteData m result (bytesLE 8 (wrapBits 64 v))
  else if GetType m result = 0x04 then WriteData m result (bytesLE 4 (encF32 (fofInt v)))
  else m

/-- Working-type chain shared by the six comparison cases of C `CMP`
(the source repeats it verbatim per comparison operator, with `cf` the
floating comparison and `ci` the integer comparison). -/
def cmpChain (m : Memory) (result operand1 operand2 : Nat)
    (cf : Frac → Frac → Bool) (ci : Int → Int → Bool) : Memory :=
  if GetType m result = 0x05 ∨ GetType m operand1 = 0x05 ∨ GetType m operand2 = 0x05 then
    cmpStore5 m result (if cf (GetDoubleData m operand1) (GetDoubleData m operand2) then 1 else 0)
  else if GetType m result = 0x04 ∨ GetType m operand1 = 0x04 ∨ GetType m operand2 = 0x04 then
    cmpStore4 m result (if cf (GetFloatData m operand1) (GetFloatData m operand2) then 1 else 0)
  else if GetType m result = 0x03 ∨ GetType m operand1 = 0x03 ∨ GetType m operand2 = 0x03 then
    opStoreLong m result (if ci (GetLongData m operand1) (GetLongData m operand2) then 1 else 0)
  else if GetType m result = 0x02 ∨ GetType m operand1 = 0x02 ∨ GetType m operand2 = 0x02 then
    opStoreInt m result (if ci (GetIntData m operand1) (GetIntData m operand2) then 1 else 0)
  else if GetType m result = 0x01 ∨ GetType m operand1 = 0x01 ∨ GetType m operand2 = 0x01 then
    opStoreByte m result (if ci (GetByteData m operand1) (GetByteData m operand2) then 1 else 0)
  else m

/-- C `CMP`: outer switch on the byte value of the `opcode` slot,
`0 = EQ, 1 = NE, 2 = LT, 3 = LE, 4 = GT, 5 = GE`. -/
def CMP (m : Memory) (result opcode operand1 operand2 : Nat) : Memory :=
  if GetByteData m opcode = 0x00 then
    cmpChain m result operand1 operand2 (fun x y => feqB x y) (fun x y => x == y)
  else if GetByteData m opcode = 0x01 then
    cmpChain m result operand1 operand2 (fun x y => !feqB x y) (fun x y => !(x == y))
  else if GetByteData m opcode = 0x02 then
    cmpChain m result operand1 operand2 (fun x y => fltB x y) (fun x y => x < y)
  else if GetByteData m opcode = 0x03 then
    cmpChain m result operand1 operand2 (fun x y => fleB x y) (fun x y => decide (x ≤ y))
  else if GetByteData m opcode = 0x04 then
    cmpChain m result operand1 operand2 (fun x y => fltB y x) (fun x y => y < x)
  else if GetByteData m opcode = 0x05 then
    cmpChain m result operand1 operand2 (fun x y => fleB y x) (fun x y => decide (y ≤ x))
  else m

/-- C `RETURN`: the function body is `return 0;` — it has no effect, and
in particular it does not stop the interpreter loop. -/
def RETURN : Nat := 0

/-- C `THROW` (reserved, no-op). -/
def THROW : Nat := 0

/-- C `WIDE` (reserved, no-op). -/
def WIDE : Nat := 0

/-! ### Image loader (first half of C `main`)

After the magic check the loader skips 8 reserved bytes, reads the
big-endian 64-bit `memory_size`, takes `memory_size` bytes of data,
points `type` at the following bytes, and then skips only
`memory_size / 2` (integer division, i.e. floor) bytes before treating
the rest of the file as code. -/

/-- Big-endian decoding of the 8 bytes at offset `i`. -/
def beU64 (l : List Nat) (i : Nat) : Nat :=
  lbGet l i * pow2 56 + lbGet l (i + 1) * pow2 48 + lbGet l (i + 2) * pow2 40 +
  lbGet l (i + 3) * pow2 32 + lbGet l (i + 4) * pow2 24 + lbGet l (i + 5) * pow2 16 +
  lbGet l (i + 6) * pow2 8 + lbGet l (i + 7)

/-- C `main`, lines up to the start of the interpreter loop: magic check
(exit code −3 on failure, modelled as `none`), then the buffer split.
The `type` pointer is a bare pointer into the tail of the file; the code
pointer is `data + memory_size + memory_size / 2`. -/
def loadImage (file : List Nat) : Option (Memory × List Nat) :=
  if lbGet file 0 = 0x41 ∧ lbGet file 1 = 0x51 ∧ lbGet file 2 = 0x42 ∧ lbGet file 3 = 0x43 then
    let ms := beU64 file 8
    some ({ type := file.drop (16 + ms), data := (file.drop 16).take ms, size := ms },
          file.drop (16 + ms + ms / 2))
  else none

/-! ### Interpreter loop (second half of C `main`)

The loop state is the memory, the code segment and the program counter
(a byte offset into the code segment, with `run_code`, the base the C
passes to `IF` and `GOTO`, at offset 0).  The loop runs while
`bytecode_file < bytecode_end`, i.e. while `pc < code.length`. -/

structure VM where
  mem : Memory
  code : List Nat
  pc : Nat
  deriving DecidableEq

/-- Decode `n` further operands (the argument slots of `INVOKE`) and
return the stream position after them. -/
def skipOperands (code : List Nat) (pos : Nat) : Nat → Nat
  | 0 => pos
  | n + 1 => skipOperands code (pos + (decodeOp code pos).2) n

/-- One iteration of the C interpreter `switch` (the caller has already
checked `pc < code.length`).  Faithful notes:
* opcode `0x0F` (`IF`): `main` calls `IF(run_code, …)` but never assigns
  the returned pointer to `bytecode_file`, so the branch target is
  discarded and the PC simply moves past the three operands;
* opcode `0x15` (`RETURN`): the handler is a no-op and the loop
  continues with the next byte;
* opcode `0x16` (`GOTO`): `bytecode_file = GOTO(run_code, off)` — the
  base is the start of the code segment, not the current PC.  A negative
  target would point before the code segment; the model clamps it to 0;
* opcode `0x14` (`INVOKE`): the argument count is read from memory at
  decode time; the host `print` writes its `printf` return value into
  the return slot via `SetIntData` — that value depends on the host
  environment and is modelled as 0;
* the `default` branch of the C switch is empty: the PC does not move. -/
def stepInstr (s : VM) : VM :=
  if lbGet s.code s.pc = 0x00 then { s with pc := s.pc + 1 }
  else if lbGet s.code s.pc = 0x01 then
    let d1 := decodeOp s.code (s.pc + 1)
    let d2 := decodeOp s.code (s.pc + 1 + d1.2)
    { s with mem := LOAD s.mem d1.1 d2.1, pc := s.pc + 1 + d1.2 + d2.2 }
  else if lbGet s.code s.pc = 0x02 then
    let d1 := decodeOp s.code (s.pc + 1)
    let d2 := decodeOp s.code (s.pc + 1 + d1.2)
    { s with mem := STORE s.mem d1.1 d2.1, pc := s.pc + 1 + d1.2 + d2.2 }
  else if lbGet s.code s.pc = 0x03 then
    let d1 := decodeOp s.code (s.pc + 1)
    let d2 := decodeOp s.code (s.pc + 1 + d1.2)
    { s with mem := NEW s.mem d1.1 d2.1, pc := s.pc + 1 + d1.2 + d2.2 }
  else if lbGet s.code s.pc = 0x04 then
    let d1 := decodeOp s.code (s.pc + 1)
    { s with mem := FREE s.mem d1.1, pc := s.pc + 1 + d1.2 }
  else if lbGet s.code s.pc = 0x05 then
    let d1 := decodeOp s.code (s.pc + 1)
    let d2 := decodeOp s.code (s.pc + 1 + d1.2)
    { s with mem := PTR s.mem d1.1 d2.1, pc := s.pc + 1 + d1.2 + d2.2 }
  else if lbGet s.code s.pc = 0x06 then
    let d1 := decodeOp s.code (s.pc + 1)
    let d2 := decodeOp s.code (s.pc + 1 + d1.2)
    let d3 := decodeOp s.code (s.pc + 1 + d1.2 + d2.2)
    { s with mem := ADD s.mem d1.1 d2.1 d3.1, pc := s.pc + 1 + d1.2 + d2.2 + d3.2 }
  else if lbGet s.code s.pc = 0x07 then
    let d1 := decodeOp s.code (s.pc + 1)
    let d2 := decodeOp s.code (s.pc + 1 + d1.2)
    let d3 := decodeOp s.code (s.pc + 1 + d1.2 + d2.2)
    { s with mem := SUB s.mem d1.1 d2.1 d3.1, pc := s.pc + 1 + d1.2 + d2.2 + d3.2 }
  else if lbGet s.code s.pc = 0x08 then
    let d1 := decodeOp s.code (s.pc + 1)
    let d2 := decodeOp s.code (s.pc + 1 + d1.2)
    let d3 := decodeOp s.code (s.pc + 1 + d1.2 + d2.2)
    { s with mem := MUL s.mem d1.1 d2.1 d3.1, pc := s.pc + 1 + d1.2 + d2.2 + d3.2 }
  else if lbGet s.code s.pc = 0x09 then
    let d1 := decodeOp s.code (s.pc + 1)
    let d2 := decodeOp s.code (s.pc + 1 + d1.2)
    let d3 := decodeOp s.code (s.pc + 1 + d1.2 + d2.2)
    { s with mem := DIV s.mem d1.1 d2.1 d3.1, pc := s.pc + 1 + d1.2 + d2.2 + d3.2 }
  else if lbGet s.code s.pc = 0x0A then
    let d1 := decodeOp s.code (s.pc + 1)
    let d2 := decodeOp s.code (s.pc + 1 + d1.2)
    let d3 := decodeOp s.code (s.pc + 1 + d1.2 + d2.2)
    { s with mem := REM s.mem d1.1 d2.1 d3.1, pc := s.pc + 1 + d1.2 + d2.2 + d3.2 }
  else if lbGet s.code s.pc = 0x0B then
    let d1 := decodeOp s.code (s.pc + 1)
    let d2 := decodeOp s.code (s.pc + 1 + d1.2)
    { s with mem := NEG s.mem d1.1 d2.1, pc := s.pc + 1 + d1.2 + d2.2 }
  else if lbGet s.code s.pc = 0x0C then
    let d1 := decodeOp s.code (s.pc + 1)
    let d2 := decodeOp s.code (s.pc + 1 + d1.2)
    let d3 := decodeOp s.code (s.pc + 1 + d1.2 + d2.2)
    { s with mem := SHL s.mem d1.1 d2.1 d3.1, pc := s.pc + 1 + d1.2 + d2.2 + d3.2 }
  else if lbGet s.code s.pc = 0x0D then
    let d1 := decodeOp s.code (s.pc + 1)
    let d2 := decodeOp s.code (s.pc + 1 + d1.2)
    let d3 := decodeOp s.code (s.pc + 1 + d1.2 + d2.2)
    { s with mem := SHR s.mem d1.1 d2.1 d3.1, pc := s.pc + 1 + d1.2 + d2.2 + d3.2 }
  else if lbGet s.code s.pc = 0x0E then
    let d1 := decodeOp s.code (s.pc + 1)
    let d2 := decodeOp s.code (s.pc + 1 + d1.2)
    let d3 := decodeOp s.code (s.pc + 1 + d1.2 + d2.2)
    { s with mem := SAR s.mem d1.1 d2.1 d3.1, pc := s.pc + 1 + d1.2 + d2.2 + d3.2 }
  else if lbGet s.code s.pc = 0x0F then
    let d1 := decodeOp s.code (s.pc + 1)
    let d2 := decodeOp s.code (s.pc + 1 + d1.2)
    let d3 := decodeOp s.code (s.pc + 1 + d1.2 + d2.2)
    { s with pc := s.pc + 1 + d1.2 + d2.2 + d3.2 }
  else if lbGet s.code s.pc = 0x10 then
    let d1 := decodeOp s.code (s.pc + 1)
    let d2 := decodeOp s.code (s.pc + 1 + d1.2)
    let d3 := decodeOp s.code (s.pc + 1 + d1.2 + d2.2)
    { s with mem := AND s.mem d1.1 d2.1 d3.1, pc := s.pc + 1 + d1.2 + d2.2 + d3.2 }
  else if lbGet s.code s.pc = 0x11 then
    let d1 := decodeOp s.code (s.pc + 1)
    let d2 := decodeOp s.code (s.pc + 1 + d1.2)
    let d3 := decodeOp s.code (s.pc + 1 + d1.2 + d2.2)
    { s with mem := OR s.mem d1.1 d2.1 d3.1, pc := s.pc + 1 + d1.2 + d2.2 + d3.2 }
  else if lbGet s.code s.pc = 0x12 then
    let d1 := decodeOp s.code (s.pc + 1)
    let d2 := decodeOp s.code (s.pc + 1 + d1.2)
    let d3 := decodeOp s.code (s.pc + 1 + d1.2 + d2.2)
    { s with mem := XOR s.mem d1.1 d2.1 d3.1, pc := s.pc + 1 + d1.2 + d2.2 + d3.2 }
  else if lbGet s.code s.pc = 0x13 then
    let d1 := decodeOp s.code (s.pc + 1)
    let d2 := decodeOp s.code (s.pc + 1 + d1.2)
    let d3 := decodeOp s.code (s.pc + 1 + d1.2 + d2.2)
    let d4 := decodeOp s.code (s.pc + 1 + d1.2 + d2.2 + d3.2)
    { s with mem := CMP s.mem d1.1 d2.1 d3.1 d4.1, pc := s.pc + 1 + d1.2 + d2.2 + d3.2 + d4.2 }
  else if lbGet s.code s.pc = 0x14 then
    let d1 := decodeOp s.code (s.pc + 1)
    let d2 := decodeOp s.code (s.pc + 1 + d1.2)
    let d3 := decodeOp s.code (s.pc + 1 + d1.2 + d2.2)
    let argn := (GetLongData s.mem d3.1).toNat
    let pcEnd := skipOperands s.code (s.pc + 1 + d1.2 + d2.2 + d3.2) argn
    { s with mem := SetIntData s.mem d2.1 0, pc := pcEnd }
  else if lbGet s.code s.pc = 0x15 then { s with pc := s.pc + 1 }
  else if lbGet s.code s.pc = 0x16 then
    let d1 := decodeOp s.code (s.pc + 1)
    { s with pc := (GOTO 0 s.mem d1.1).toNat }
  else if lbGet s.code s.pc = 0x17 then { s with pc := s.pc + 1 }
  else if lbGet s.code s.pc = 0xFF then { s with pc := s.pc + 1 }
  else s

/-- Loop exit condition: `bytecode_file < bytecode_end` fails. -/
def halted (s : VM) : Prop := s.code.length ≤ s.pc

instance (s : VM) : Decidable (halted s) := Nat.decLe _ _

/-- Fuelled interpreter loop: `some` is normal completion of the
`while` loop, `none` means the fuel ran out. -/
def runLoop : Nat → VM → Option VM
  | 0, _ => none
  | n + 1, s => if s.code.length ≤ s.pc then some s else runLoop n (stepInstr s)

/-! ### Spec-side definitions

These follow the wording of the specification (not the C control flow)
and are compared with the implementation in the refinement theorems. -/

/-- Storage width table of the spec (§3): tags 1–5 are 1, 4, 8, 4, 8
bytes; void and reference tags have no arithmetic storage width. -/
def tagWidth (t : Nat) : Nat :=
  if t = 1 then 1
  else if t = 2 then 4
  else if t = 3 then 8
  else if t = 4 then 4
  else if t = 5 then 8
  else 0

/-- Working type of the spec (§4.D): the highest-ranked tag among
result, lhs and rhs; the rank `double > float > long > int > byte`
coincides with the numeric order of the tags 5 > 4 > 3 > 2 > 1. -/
def workingType (t1 t2 t3 : Nat) : Nat := max t1 (max t2 t3)

/-- Spec-side store of a floating working-type value: "reading the
destination tag, truncate or widen the working-type value to that tag's
storage width using C numeric conversion rules" — a total switch over
the five data tags. -/
def specStoreF (m : Memory) (i : Nat) (v : Frac) : Memory :=
  if GetType m i = 0x01 then WriteData m i (bytesLE 1 (wrapBits 8 (ftrunc v)))
  else if GetType m i = 0x02 then WriteData m i (bytesLE 4 (wrapBits 32 (ftrunc v)))
  else if GetType m i = 0x03 then WriteData m i (bytesLE 8 (wrapBits 64 (ftrunc v)))
  else if GetType m i = 0x04 then WriteData m i (bytesLE 4 (encF32 v))
  else if GetType m i = 0x05 then WriteData m i (bytesLE 8 (encF64 v))
  else m

/-- Spec-side store of an integer working-type value. -/
def specStoreZ (m : Memory) (i : Nat) (v : Int) : Memory :=
  if GetType m i = 0x01 then WriteData m i (bytesLE 1 (wrapBits 8 v))
  else if GetType m i = 0x02 then WriteData m i (bytesLE 4 (wrapBits 32 v))
  else if GetType m i = 0x03 then WriteData m i (bytesLE 8 (wrapBits 64 v))
  else if GetType m i = 0x04 then WriteData m i (bytesLE 4 (encF32 (fofInt v)))
  else if GetType m i = 0x05 then WriteData m i (bytesLE 8 (encF64 (fofInt v)))
  else m

/-- ADD as the spec words it: compute the working type as the maximum
rank, read both operands in the working type, add in the working type,
and store with width coercion into the destination. -/
def ADDspec (m : Memory) (result operand1 operand2 : Nat) : Memory :=
  let w := workingType (GetType m result) (GetType m operand1) (GetType m operand2)
  if w = 5 then
    specStoreF m result (roundF64 (fadd (GetDoubleData m operand1) (GetDoubleData m operand2)))
  else if w = 4 then
    specStoreF m result (roundF32 (fadd (GetFloatData m operand1) (GetFloatData m operand2)))
  else if w = 3 then
    specStoreZ m result (GetLongData m operand1 + GetLongData m operand2)
  else if w = 2 then
    specStoreZ m result (GetIntData m operand1 + GetIntData m operand2)
  else if w = 1 then
    specStoreZ m result (GetByteData m operand1 + GetByteData m operand2)
  else m

/-! ### Concrete images and memories used by the witnesses and
counterexamples -/

/-- Opcode bytes the interpreter switch recognises. -/
def knownOpcode (b : Nat) : Prop := b < 0x18 ∨ b = 0xFF

instance (b : Nat) : Decidable (knownOpcode b) := by
  unfold knownOpcode; infer_instance

/-- Memory of spec scenario 3 / claim C4: slot 0 a double `2.5`
(bits `0x4004000000000000`, little endian), slot 8 an `int32` `1`,
slot 16 an `int32` destination. -/
def memC4 : Memory :=
  { type := [0x50, 0, 0, 0, 0x20, 0, 0, 0, 0x20, 0]
    data := [0, 0, 0, 0, 0, 0, 0x04, 0x40, 1, 0, 0, 0, 0, 0, 0, 0, 0, 0, 0, 0]
    size := 20 }

/-- Long slots for the shift witness: slot 0 a long `-8`, slot 8 a long
`1`, slot 16 a long destination. -/
def memC5 : Memory :=
  { type := [0x30, 0, 0, 0, 0x30, 0, 0, 0, 0x30, 0, 0, 0]
    data := [0xF8, 0xFF, 0xFF, 0xFF, 0xFF, 0xFF, 0xFF, 0xFF, 1, 0, 0, 0, 0, 0, 0, 0,
             0, 0, 0, 0, 0, 0, 0, 0]
    size := 24 }

/-- Memory for the IF counterexample: slot 0 a byte `1` (the condition),
slot 8 a long `9` (`true_off`), slot 16 a long `2` (`false_off`). -/
def memIfC1 : Memory :=
  { type := [0x10, 0, 0, 0, 0x30, 0, 0, 0, 0x30, 0, 0, 0]
    data := [1, 0, 0, 0, 0, 0, 0, 0, 9, 0, 0, 0, 0, 0, 0, 0, 2, 0, 0, 0, 0, 0, 0, 0]
    size := 24 }

/-- VM state of the IF counterexample: `IF cond=0 true_off=8
false_off=16`, followed by a NOP. -/
def vmC1 : VM := { mem := memIfC1, code := [0x0F, 0x00, 0x08, 0x10, 0x00], pc := 0 }

/-- Memory holding a single long `+2` at slot 0 (the GOTO offset). -/
def memGoto : Memory :=
  { type := [0x30, 0, 0, 0], data := [2, 0, 0, 0, 0, 0, 0, 0], size := 8 }

/-- Spec scenario 5 with the RETURN spelled out: `GOTO 0`, a NOP at
offset 2 and RETURN at offset 3; slot 0 holds long `+2`. -/
def vmC6 : VM := { mem := memGoto, code := [0x16, 0x00, 0x00, 0x15], pc := 0 }

/-- The same program with the GOTO at offset 1 instead of offset 0. -/
def vmC6ctr : VM := { mem := memGoto, code := [0x00, 0x16, 0x00], pc := 1 }

/-- Memory with no data at all (NOP/RETURN-only programs). -/
def memNil : Memory := { type := [], data := [], size := 0 }

/-- Two RETURN opcodes in a row. -/
def vmRet : VM := { mem := memNil, code := [0x15, 0x15], pc := 0 }

/-- A single unrecognised opcode byte. -/
def vmUnknown : VM := { mem := memNil, code := [0x18], pc := 0 }

/-- Memory for the LOAD/tag-5 counterexample: slot 0 holds the bytes
`1..8` (tagged long), slot 8 is a double destination initialised to 0. -/
def memC8 : Memory :=
  { type := [0x30, 0, 0, 0, 0x50, 0, 0, 0]
    data := [1, 2, 3, 4, 5, 6, 7, 8, 0, 0, 0, 0, 0, 0, 0, 0]
    size := 16 }

/-- A bytecode image with the correct magic and an odd `memory_size` of
1: one data byte `0xAA`, one packed type byte `0xBB`, and `0xCC`
intended as the first code byte by the spec's ceil-split. -/
def fileC7 : List Nat :=
  [0x41, 0x51, 0x42, 0x43, 0, 0, 0, 0, 0, 0, 0, 0, 0, 0, 0, 1, 0xAA, 0xBB, 0xCC]

/-! ## Theorems -/

theorem length_writeBytes (d : List Nat) (i : Nat) (bs : List Nat) :
    (writeBytes d i bs).length = d.length := by
  simp [writeBytes]

theorem lbGet_oob (d : List Nat) (j : Nat) (h : d.length ≤ j) : lbGet d j = 0 := by
  unfold lbGet
  rw [List.getD_eq_getElem?_getD, List.getElem?_eq_none (by omega)]
  rfl

theorem lbGet_writeBytes_outside (d : List Nat) (i : Nat) (bs : List Nat) (j : Nat)
    (h : j < i ∨ i + bs.length ≤ j) :
    lbGet (writeBytes d i bs) j = lbGet d j := by
  rcases Nat.lt_or_ge j d.length with hj | hj
  · unfold writeBytes lbGet
    rw [List.getD_eq_getElem?_getD, List.getElem?_map, List.getElem?_range (by simpa using hj)]
    have hc : ¬(i ≤ j ∧ j < i + bs.length) := by omega
    simp [hc, lbGet]
  · rw [lbGet_oob _ _ (by rw [length_writeBytes]; omega), lbGet_oob _ _ hj]

theorem scanOperand_rep (k : Nat) (b : Nat) (rest : List Nat) (j : Nat) (hb : b < 255) :
    scanOperand (List.replicate k 255 ++ b :: rest) j = (255 * (k + j) + b, k + j + 1) := by
  induction k generalizing j with
  | zero => simp [scanOperand, hb]
  | succ n ih =>
    rw [List.replicate_succ, List.cons_append]
    show scanOperand _ _ = _
    rw [scanOperand]
    simp only [if_neg (by omega : ¬ (255 : Nat) < 255)]
    rw [ih (j + 1)]
    have h1 : 255 * (n + (j + 1)) + b = 255 * (n + 1 + j) + b := by ring_nf
    have h2 : n + (j + 1) + 1 = n + 1 + j + 1 := by omega
    rw [h1, h2]

/-- C3: a well-formed ULEB-255 operand (`k` bytes `0xFF` and a terminal
byte `b < 255`) decodes to `255 * k + b`, consuming `k + 1` bytes (the
PC advances past the terminal byte); decoding is a left inverse of the
spec's encoder, whose output length is `⌊v / 255⌋ + 1`; and the boundary
encodings of the spec (`0`, `255`, `510`) decode as stated. -/
theorem C3_uleb_roundtrip (k b v : Nat) (rest : List Nat) (hb : b < 255) :
    decodeOp (List.replicate k 255 ++ b :: rest) 0 = (255 * k + b, k + 1)
    ∧ decodeOp (encodeOperand v) 0 = (v, v / 255 + 1)
    ∧ (encodeOperand v).length = v / 255 + 1
    ∧ encodeOperand 0 = [0]
    ∧ encodeOperand 255 = [255, 0]
    ∧ encodeOperand 510 = [255, 255, 0]
    ∧ decodeOp [0] 0 = (0, 1)
    ∧ decodeOp [255, 0] 0 = (255, 2)
    ∧ decodeOp [255, 255, 0] 0 = (510, 3) := by
  refine ⟨?_, ?_, ?_, by decide, by decide, by decide, by decide, by decide, by decide⟩
  · unfold decodeOp
    rw [List.drop_zero, scanOperand_rep k b rest 0 hb]
    rw [Nat.add_zero]
  · unfold decodeOp encodeOperand
    rw [List.drop_zero, scanOperand_rep (v / 255) (v % 255) [] 0 (Nat.mod_lt _ (by omega))]
    have h1 : 255 * (v / 255) + v % 255 = v := by omega
    rw [Nat.add_zero, h1]
  · unfold encodeOperand
    simp

theorem C3_uleb_roundtrip_witness :
    decodeOp (List.replicate 2 255 ++ 7 :: []) 0 = (255 * 2 + 7, 2 + 1)
    ∧ decodeOp (encodeOperand 300) 0 = (300, 300 / 255 + 1)
    ∧ (encodeOperand 300).length = 300 / 255 + 1
    ∧ encodeOperand 0 = [0]
    ∧ encodeOperand 255 = [255, 0]
    ∧ encodeOperand 510 = [255, 255, 0]
    ∧ decodeOp [0] 0 = (0, 1)
    ∧ decodeOp [255, 0] 0 = (255, 2)
    ∧ decodeOp [255, 255, 0] 0 = (510, 3) :=
  C3_uleb_roundtrip 2 7 300 [] (by decide)

theorem pow2_pos (k : Nat) : 0 < pow2 k := by
  unfold pow2
  show 0 < 1 <<< k
  rw [Nat.shiftLeft_eq, Nat.one_mul]
  exact Nat.pos_pow_of_pos k (by omega)

/-- C5: for slots with integer tags, `SHR` and `SAR` are the same
function on memory states (the source bodies are identical), and the
common shift primitive is an arithmetic, sign-preserving right shift. -/
theorem C5_shr_sar_identical (m : Memory) (r a b : Nat)
    (hr : GetType m r = 1 ∨ GetType m r = 2 ∨ GetType m r = 3)
    (ha : GetType m a = 1 ∨ GetType m a = 2 ∨ GetType m a = 3)
    (hb : GetType m b = 1 ∨ GetType m b = 2 ∨ GetType m b = 3) :
    SHR m r a b = SAR m r a b
    ∧ (∀ x s : Int, 0 ≤ x → 0 ≤ cSar x s)
    ∧ (∀ x s : Int, x < 0 → cSar x s < 0) := by
  refine ⟨rfl, ?_, ?_⟩
  · intro x s hx
    exact Int.fdiv_nonneg hx (Int.natCast_nonneg _)
  · intro x s hx
    exact Int.fdiv_neg' hx (by exact_mod_cast pow2_pos s.toNat)

theorem C5_shr_sar_identical_witness :
    (SHR memC5 16 0 8 = SAR memC5 16 0 8
    ∧ (∀ x s : Int, 0 ≤ x → 0 ≤ cSar x s)
    ∧ (∀ x s : Int, x < 0 → cSar x s < 0))
    ∧ (SHR memC5 16 0 8).data = (memC5.data.take 16) ++ [0xFC, 0xFF, 0xFF, 0xFF, 0xFF, 0xFF, 0xFF, 0xFF] := by
  refine ⟨C5_shr_sar_identical memC5 16 0 8 (by decide) (by decide) (by decide), by decide⟩

/-- C4: over the data tags 1–5, the nested conditional chain of the C
`ADD` is exactly the spec's promotion rule — compute in the working type
(the maximum-ranked tag among result and operands) and store with width
coercion into the destination; and on the concrete scenario (slot 0 a
double `2.5`, slot 8 an `int32` `1`, slot 16 an `int32` destination) it
stores the `int32` value `3` at slot 16. -/
theorem C4_add_working_type (m : Memory) (r a b : Nat)
    (hr : GetType m r = 1 ∨ GetType m r = 2 ∨ GetType m r = 3 ∨ GetType m r = 4 ∨ GetType m r = 5)
    (ha : GetType m a = 1 ∨ GetType m a = 2 ∨ GetType m a = 3 ∨ GetType m a = 4 ∨ GetType m a = 5)
    (hb : GetType m b = 1 ∨ GetType m b = 2 ∨ GetType m b = 3 ∨ GetType m b = 4 ∨ GetType m b = 5) :
    ADD m r a b = ADDspec m r a b
    ∧ (ADD memC4 16 0 8).data = memC4.data.take 16 ++ [3, 0, 0, 0] := by
  constructor
  · rcases hr with h1 | h1 | h1 | h1 | h1 <;> rcases ha with h2 | h2 | h2 | h2 | h2 <;>
      rcases hb with h3 | h3 | h3 | h3 | h3 <;>
      simp [ADD, ADDspec, workingType, specStoreF, specStoreZ, opStoreDouble, opStoreFloat,
        opStoreLong, opStoreInt, opStoreByte, h1, h2, h3, Nat.max_def]
  · decide

theorem C4_add_working_type_witness :
    (ADD memC4 16 0 8 = ADDspec memC4 16 0 8
    ∧ (ADD memC4 16 0 8).data = memC4.data.take 16 ++ [3, 0, 0, 0]) :=
  C4_add_working_type memC4 16 0 8 (by decide) (by decide) (by decide)

theorem length_bytesLE (w : Nat) : ∀ n, (bytesLE w n).length = w := by
  induction w with
  | zero => intro n; rfl
  | succ k ih => intro n; simp [bytesLE, ih]

theorem lbGet_write_bytesLE_outside (d : List Nat) (i w n j : Nat)
    (h : j < i ∨ i + w ≤ j) :
    lbGet (writeBytes d i (bytesLE w n)) j = lbGet d j := by
  apply lbGet_writeBytes_outside
  rw [length_bytesLE]
  exact h

theorem tagWidth_eq_zero (t : Nat) (h : tagWidth t = 0) :
    t ≠ 1 ∧ t ≠ 2 ∧ t ≠ 3 ∧ t ≠ 4 ∧ t ≠ 5 := by
  refine ⟨?_, ?_, ?_, ?_, ?_⟩ <;> rintro rfl <;> simp [tagWidth] at h

theorem opStoreDouble_frameAll (m : Memory) (r : Nat) (v : Frac) :
    (∀ j, (j < r ∨ r + tagWidth (GetType m r) ≤ j) →
      lbGet (opStoreDouble m r v).data j = lbGet m.data j)
    ∧ (opStoreDouble m r v).data.length = m.data.length
    ∧ (opStoreDouble m r v).type = m.type
    ∧ (tagWidth (GetType m r) = 0 → opStoreDouble m r v = m) := by
  refine ⟨fun j hj => ?_, ?_, ?_, fun h => ?_⟩
  · unfold opStoreDouble WriteData
    split_ifs with h1 h2 h3 h4 h5
    · rw [h1] at hj; exact lbGet_write_bytesLE_outside _ _ _ _ _ (by simpa [tagWidth] using hj)
    · rw [h2] at hj; exact lbGet_write_bytesLE_outside _ _ _ _ _ (by simpa [tagWidth] using hj)
    · rw [h3] at hj; exact lbGet_write_bytesLE_outside _ _ _ _ _ (by simpa [tagWidth] using hj)
    · rw [h4] at hj; exact lbGet_write_bytesLE_outside _ _ _ _ _ (by simpa [tagWidth] using hj)
    · rw [h5] at hj; exact lbGet_write_bytesLE_outside _ _ _ _ _ (by simpa [tagWidth] using hj)
    · rfl
  · unfold opStoreDouble WriteData
    split_ifs <;> simp [length_writeBytes]
  · unfold opStoreDouble WriteData
    split_ifs <;> rfl
  · obtain ⟨n1, n2, n3, n4, n5⟩ := tagWidth_eq_zero _ h
    unfold opStoreDouble
    rw [if_neg n1, if_neg n2, if_neg n3, if_neg n4, if_neg n5]

theorem opStoreFloat_frameAll (m : Memory) (r : Nat) (v : Frac) :
    (∀ j, (j < r ∨ r + tagWidth (GetType m r) ≤ j) →
      lbGet (opStoreFloat m r v).data j = lbGet m.data j)
    ∧ (opStoreFloat m r v).data.length = m.data.length
    ∧ (opStoreFloat m r v).type = m.type
    ∧ (tagWidth (GetType m r) = 0 → opStoreFloat m r v = m) := by
  refine ⟨fun j hj => ?_, ?_, ?_, fun h => ?_⟩
  · unfold opStoreFloat WriteData
    split_ifs with h1 h2 h3 h4
    · rw [h1] at hj; exact lbGet_write_bytesLE_outside _ _ _ _ _ (by simpa [tagWidth] using hj)
    · rw [h2] at hj; exact lbGet_write_bytesLE_outside _ _ _ _ _ (by simpa [tagWidth] using hj)
    · rw [h3] at hj; exact lbGet_write_bytesLE_outside _ _ _ _ _ (by simpa [tagWidth] using hj)
    · rw [h4] at hj; exact lbGet_write_bytesLE_outside _ _ _ _ _ (by simpa [tagWidth] using hj)
    · rfl
  · unfold opStoreFloat WriteData
    split_ifs <;> simp [length_writeBytes]
  · unfold opStoreFloat WriteData
    split_ifs <;> rfl
  · obtain ⟨n1, n2, n3, n4, _⟩ := tagWidth_eq_zero _ h
    unfold opStoreFloat
    rw [if_neg n1, if_neg n2, if_neg n3, if_neg n4]

theorem opStoreLong_frameAll (m : Memory) (r : Nat) (v : Int) :
    (∀ j, (j < r ∨ r + tagWidth (GetType m r) ≤ j) →
      lbGet (opStoreLong m r v).data j = lbGet m.data j)
    ∧ (opStoreLong m r v).data.length = m.data.length
    ∧ (opStoreLong m r v).type = m.type
    ∧ (tagWidth (GetType m r) = 0 → opStoreLong m r v = m) := by
  refine ⟨fun j hj => ?_, ?_, ?_, fun h => ?_⟩
  · unfold opStoreLong WriteData
    split_ifs with h1 h2 h3
    · rw [h1] at hj; exact lbGet_write_bytesLE_outside _ _ _ _ _ (by simpa [tagWidth] using hj)
    · rw [h2] at hj; exact lbGet_write_bytesLE_outside _ _ _ _ _ (by simpa [tagWidth] using hj)
    · rw [h3] at hj; exact lbGet_write_bytesLE_outside _ _ _ _ _ (by simpa [tagWidth] using hj)
    · rfl
  · unfold opStoreLong WriteData
    split_ifs <;> simp [length_writeBytes]
  · unfold opStoreLong WriteData
    split_ifs <;> rfl
  · obtain ⟨n1, n2, n3, _, _⟩ := tagWidth_eq_zero _ h
    unfold opStoreLong
    rw [if_neg n1, if_neg n2, if_neg n3]

theorem opStoreInt_frameAll (m : Memory) (r : Nat) (v : Int) :
    (∀ j, (j < r ∨ r + tagWidth (GetType m r) ≤ j) →
      lbGet (opStoreInt m r v).data j = lbGet m.data j)
    ∧ (opStoreInt m r v).data.length = m.data.length
    ∧ (opStoreInt m r v).type = m.type
    ∧ (tagWidth (GetType m r) = 0 → opStoreInt m r v = m) := by
  refine ⟨fun j hj => ?_, ?_, ?_, fun h => ?_⟩
  · unfold opStoreInt WriteData
    split_ifs with h1 h2
    · rw [h1] at hj; exact lbGet_write_bytesLE_outside _ _ _ _ _ (by simpa [tagWidth] using hj)
    · rw [h2] at hj; exact lbGet_write_bytesLE_outside _ _ _ _ _ (by simpa [tagWidth] using hj)
    · rfl
  · unfold opStoreInt WriteData
    split_ifs <;> simp [length_writeBytes]
  · unfold opStoreInt WriteData
    split_ifs <;> rfl
  · obtain ⟨n1, n2, _, _, _⟩ := tagWidth_eq_zero _ h
    unfold opStoreInt
    rw [if_neg n1, if_neg n2]

theorem opStoreByte_frameAll (m : Memory) (r : Nat) (v : Int) :
    (∀ j, (j < r ∨ r + tagWidth (GetType m r) ≤ j) →
      lbGet (opStoreByte m r v).data j = lbGet m.data j)
    ∧ (opStoreByte m r v).data.length = m.data.length
    ∧ (opStoreByte m r v).type = m.type
    ∧ (tagWidth (GetType m r) = 0 → opStoreByte m r v = m) := by
  refine ⟨fun j hj => ?_, ?_, ?_, fun h => ?_⟩
  · unfold opStoreByte WriteData
    split_ifs with h1
    · rw [h1] at hj; exact lbGet_write_bytesLE_outside _ _ _ _ _ (by simpa [tagWidth] using hj)
    · rfl
  · unfold opStoreByte WriteData
    split_ifs <;> simp [length_writeBytes]
  · unfold opStoreByte WriteData
    split_ifs <;> rfl
  · obtain ⟨n1, _, _, _, _⟩ := tagWidth_eq_zero _ h
    unfold opStoreByte
    rw [if_neg n1]

theorem cmpStore5_frameAll (m : Memory) (r : Nat) (v : Int) :
    (∀ j, (j < r ∨ r + tagWidth (GetType m r) ≤ j) →
      lbGet (cmpStore5 m r v).data j = lbGet m.data j)
    ∧ (cmpStore5 m r v).data.length = m.data.length
    ∧ (cmpStore5 m r v).type = m.type
    ∧ (tagWidth (GetType m r) = 0 → cmpStore5 m r v = m) := by
  refine ⟨fun j hj => ?_, ?_, ?_, fun h => ?_⟩
  · unfold cmpStore5 WriteData
    split_ifs with h1 h2 h3 h4 h5
    · rw [h1] at hj; exact lbGet_write_bytesLE_outside _ _ _ _ _ (by simpa [tagWidth] using hj)
    · rw [h2] at hj; exact lbGet_write_bytesLE_outside _ _ _ _ _ (by simpa [tagWidth] using hj)
    · rw [h3] at hj; exact lbGet_write_bytesLE_outside _ _ _ _ _ (by simpa [tagWidth] using hj)
    · rw [h4] at hj; exact lbGet_write_bytesLE_outside _ _ _ _ _ (by simpa [tagWidth] using hj)
    · rw [h5] at hj; exact lbGet_write_bytesLE_outside _ _ _ _ _ (by simpa [tagWidth] using hj)
    · rfl
  · unfold cmpStore5 WriteData
    split_ifs <;> simp [length_writeBytes]
  · unfold cmpStore5 WriteData
    split_ifs <;> rfl
  · obtain ⟨n1, n2, n3, n4, n5⟩ := tagWidth_eq_zero _ h
    unfold cmpStore5
    rw [if_neg n1, if_neg n2, if_neg n3, if_neg n4, if_neg n5]

theorem cmpStore4_frameAll (m : Memory) (r : Nat) (v : Int) :
    (∀ j, (j < r ∨ r + tagWidth (GetType m r) ≤ j) →
      lbGet (cmpStore4 m r v).data j = lbGet m.data j)
    ∧ (cmpStore4 m r v).data.length = m.data.length
    ∧ (cmpStore4 m r v).type = m.type
    ∧ (tagWidth (GetType m r) = 0 → cmpStore4 m r v = m) := by
  refine ⟨fun j hj => ?_, ?_, ?_, fun h => ?_⟩
  · unfold cmpStore4 WriteData
    split_ifs with h1 h2 h3 h4
    · rw [h1] at hj; exact lbGet_write_bytesLE_outside _ _ _ _ _ (by simpa [tagWidth] using hj)
    · rw [h2] at hj; exact lbGet_write_bytesLE_outside _ _ _ _ _ (by simpa [tagWidth] using hj)
    · rw [h3] at hj; exact lbGet_write_bytesLE_outside _ _ _ _ _ (by simpa [tagWidth] using hj)
    · rw [h4] at hj; exact lbGet_write_bytesLE_outside _ _ _ _ _ (by simpa [tagWidth] using hj)
    · rfl
  · unfold cmpStore4 WriteData
    split_ifs <;> simp [length_writeBytes]
  · unfold cmpStore4 WriteData
    split_ifs <;> rfl
  · obtain ⟨n1, n2, n3, n4, _⟩ := tagWidth_eq_zero _ h
    unfold cmpStore4
    rw [if_neg n1, if_neg n2, if_neg n3, if_neg n4]

theorem ADD_frame (m : Memory) (r a b : Nat) :
    (∀ j, (j < r ∨ r + tagWidth (GetType m r) ≤ j) → lbGet (ADD m r a b).data j = lbGet m.data j)
    ∧ (ADD m r a b).data.length = m.data.length
    ∧ (ADD m r a b).type = m.type
    ∧ (tagWidth (GetType m r) = 0 → ADD m r a b = m) := by
  unfold ADD
  split_ifs
  · exact opStoreDouble_frameAll _ _ _
  · exact opStoreFloat_frameAll _ _ _
  · exact opStoreLong_frameAll _ _ _
  · exact opStoreInt_frameAll _ _ _
  · exact opStoreByte_frameAll _ _ _
  · exact ⟨fun j hj => rfl, rfl, rfl, fun h => rfl⟩

theorem SUB_frame (m : Memory) (r a b : Nat) :
    (∀ j, (j < r ∨ r + tagWidth (GetType m r) ≤ j) → lbGet (SUB m r a b).data j = lbGet m.data j)
    ∧ (SUB m r a b).data.length = m.data.length
    ∧ (SUB m r a b).type = m.type
    ∧ (tagWidth (GetType m r) = 0 → SUB m r a b = m) := by
  unfold SUB
  split_ifs
  · exact opStoreDouble_frameAll _ _ _
  · exact opStoreFloat_frameAll _ _ _
  · exact opStoreLong_frameAll _ _ _
  · exact opStoreInt_frameAll _ _ _
  · exact opStoreByte_frameAll _ _ _
  · exact ⟨fun j hj => rfl, rfl, rfl, fun h => rfl⟩

theorem MUL_frame (m : Memory) (r a b : Nat) :
    (∀ j, (j < r ∨ r + tagWidth (GetType m r) ≤ j) → lbGet (MUL m r a b).data j = lbGet m.data j)
    ∧ (MUL m r a b).data.length = m.data.length
    ∧ (MUL m r a b).type = m.type
    ∧ (tagWidth (GetType m r) = 0 → MUL m r a b = m) := by
  unfold MUL
  split_ifs
  · exact opStoreDouble_frameAll _ _ _
  · exact opStoreFloat_frameAll _ _ _
  · exact opStoreLong_frameAll _ _ _
  · exact opStoreInt_frameAll _ _ _
  · exact opStoreByte_frameAll _ _ _
  · exact ⟨fun j hj => rfl, rfl, rfl, fun h => rfl⟩

theorem DIV_frame (m : Memory) (r a b : Nat) :
    (∀ j, (j < r ∨ r + tagWidth (GetType m r) ≤ j) → lbGet (DIV m r a b).data j = lbGet m.data j)
    ∧ (DIV m r a b).data.length = m.data.length
    ∧ (DIV m r a b).type = m.type
    ∧ (tagWidth (GetType m r) = 0 → DIV m r a b = m) := by
  unfold DIV
  split_ifs
  · exact opStoreDouble_frameAll _ _ _
  · exact opStoreFloat_frameAll _ _ _
  · exact opStoreLong_frameAll _ _ _
  · exact opStoreInt_frameAll _ _ _
  · exact opStoreByte_frameAll _ _ _
  · exact ⟨fun j hj => rfl, rfl, rfl, fun h => rfl⟩

theorem REM_frame (m : Memory) (r a b : Nat) :
    (∀ j, (j < r ∨ r + tagWidth (GetType m r) ≤ j) → lbGet (REM m r a b).data j = lbGet m.data j)
    ∧ (REM m r a b).data.length = m.data.length
    ∧ (REM m r a b).type = m.type
    ∧ (tagWidth (GetType m r) = 0 → REM m r a b = m) := by
  unfold REM
  split_ifs
  · exact opStoreLong_frameAll _ _ _
  · exact opStoreInt_frameAll _ _ _
  · exact opStoreByte_frameAll _ _ _
  · exact ⟨fun j hj => rfl, rfl, rfl, fun h => rfl⟩

theorem NEG_frame (m : Memory) (r a : Nat) :
    (∀ j, (j < r ∨ r + tagWidth (GetType m r) ≤ j) → lbGet (NEG m r a).data j = lbGet m.data j)
    ∧ (NEG m r a).data.length = m.data.length
    ∧ (NEG m r a).type = m.type
    ∧ (tagWidth (GetType m r) = 0 → NEG m r a = m) := by
  unfold NEG
  split_ifs
  · exact opStoreDouble_frameAll _ _ _
  · exact opStoreFloat_frameAll _ _ _
  · exact opStoreLong_frameAll _ _ _
  · exact opStoreInt_frameAll _ _ _
  · exact opStoreByte_frameAll _ _ _
  · exact ⟨fun j hj => rfl, rfl, rfl, fun h => rfl⟩

theorem SHL_frame (m : Memory) (r a b : Nat) :
    (∀ j, (j < r ∨ r + tagWidth (GetType m r) ≤ j) → lbGet (SHL m r a b).data j = lbGet m.data j)
    ∧ (SHL m r a b).data.length = m.data.length
    ∧ (SHL m r a b).type = m.type
    ∧ (tagWidth (GetType m r) = 0 → SHL m r a b = m) := by
  unfold SHL
  split_ifs
  · exact opStoreLong_frameAll _ _ _
  · exact opStoreInt_frameAll _ _ _
  · exact opStoreByte_frameAll _ _ _
  · exact ⟨fun j hj => rfl, rfl, rfl, fun h => rfl⟩

theorem SHR_frame (m : Memory) (r a b : Nat) :
    (∀ j, (j < r ∨ r + tagWidth (GetType m r) ≤ j) → lbGet (SHR m r a b).data j = lbGet m.data j)
    ∧ (SHR m r a b).data.length = m.data.length
    ∧ (SHR m r a b).type = m.type
    ∧ (tagWidth (GetType m r) = 0 → SHR m r a b = m) := by
  unfold SHR
  split_ifs
  · exact opStoreLong_frameAll _ _ _
  · exact opStoreInt_frameAll _ _ _
  · exact opStoreByte_frameAll _ _ _
  · exact ⟨fun j hj => rfl, rfl, rfl, fun h => rfl⟩

theorem SAR_frame (m : Memory) (r a b : Nat) :
    (∀ j, (j < r ∨ r + tagWidth (GetType m r) ≤ j) → lbGet (SAR m r a b).data j = lbGet m.data j)
    ∧ (SAR m r a b).data.length = m.data.length
    ∧ (SAR m r a b).type = m.type
    ∧ (tagWidth (GetType m r) = 0 → SAR m r a b = m) := by
  unfold SAR
  split_ifs
  · exact opStoreLong_frameAll _ _ _
  · exact opStoreInt_frameAll _ _ _
  · exact opStoreByte_frameAll _ _ _
  · exact ⟨fun j hj => rfl, rfl, rfl, fun h => rfl⟩

theorem AND_frame (m : Memory) (r a b : Nat) :
    (∀ j, (j < r ∨ r + tagWidth (GetType m r) ≤ j) → lbGet (AND m r a b).data j = lbGet m.data j)
    ∧ (AND m r a b).data.length = m.data.length
    ∧ (AND m r a b).type = m.type
    ∧ (tagWidth (GetType m r) = 0 → AND m r a b = m) := by
  unfold AND
  split_ifs
  · exact opStoreLong_frameAll _ _ _
  · exact opStoreInt_frameAll _ _ _
  · exact opStoreByte_frameAll _ _ _
  · exact ⟨fun j hj => rfl, rfl, rfl, fun h => rfl⟩

theorem OR_frame (m : Memory) (r a b : Nat) :
    (∀ j, (j < r ∨ r + tagWidth (GetType m r) ≤ j) → lbGet (OR m r a b).data j = lbGet m.data j)
    ∧ (OR m r a b).data.length = m.data.length
    ∧ (OR m r a b).type = m.type
    ∧ (tagWidth (GetType m r) = 0 → OR m r a b = m) := by
  unfold OR
  split_ifs
  · exact opStoreLong_frameAll _ _ _
  · exact opStoreInt_frameAll _ _ _
  · exact opStoreByte_frameAll _ _ _
  · exact ⟨fun j hj => rfl, rfl, rfl, fun h => rfl⟩

theorem XOR_frame (m : Memory) (r a b : Nat) :
    (∀ j, (j < r ∨ r + tagWidth (GetType m r) ≤ j) → lbGet (XOR m r a b).data j = lbGet m.data j)
    ∧ (XOR m r a b).data.length = m.data.length
    ∧ (XOR m r a b).type = m.type
    ∧ (tagWidth (GetType m r) = 0 → XOR m r a b = m) := by
  unfold XOR
  split_ifs
  · exact opStoreLong_frameAll _ _ _
  · exact opStoreInt_frameAll _ _ _
  · exact opStoreByte_frameAll _ _ _
  · exact ⟨fun j hj => rfl, rfl, rfl, fun h => rfl⟩

theorem cmpChain_frame (m : Memory) (r a b : Nat) (cf : Frac → Frac → Bool) (ci : Int → Int → Bool) :
    (∀ j, (j < r ∨ r + tagWidth (GetType m r) ≤ j) →
      lbGet (cmpChain m r a b cf ci).data j = lbGet m.data j)
    ∧ (cmpChain m r a b cf ci).data.length = m.data.length
    ∧ (cmpChain m r a b cf ci).type = m.type
    ∧ (tagWidth (GetType m r) = 0 → cmpChain m r a b cf ci = m) := by
  unfold cmpChain
  split_ifs
  · exact cmpStore5_frameAll _ _ _
  · exact cmpStore5_frameAll _ _ _
  · exact cmpStore4_frameAll _ _ _
  · exact cmpStore4_frameAll _ _ _
  · exact opStoreLong_frameAll _ _ _
  · exact opStoreLong_frameAll _ _ _
  · exact opStoreInt_frameAll _ _ _
  · exact opStoreInt_frameAll _ _ _
  · exact opStoreByte_frameAll _ _ _
  · exact opStoreByte_frameAll _ _ _
  · exact ⟨fun j hj => rfl, rfl, rfl, fun h => rfl⟩

theorem CMP_frame (m : Memory) (r c a b : Nat) :
    (∀ j, (j < r ∨ r + tagWidth (GetType m r) ≤ j) → lbGet (CMP m r c a b).data j = lbGet m.data j)
    ∧ (CMP m r c a b).data.length = m.data.length
    ∧ (CMP m r c a b).type = m.type
    ∧ (tagWidth (GetType m r) = 0 → CMP m r c a b = m) := by
  unfold CMP
  split_ifs
  · exact cmpChain_frame _ _ _ _ _ _
  · exact cmpChain_frame _ _ _ _ _ _
  · exact cmpChain_frame _ _ _ _ _ _
  · exact cmpChain_frame _ _ _ _ _ _
  · exact cmpChain_frame _ _ _ _ _ _
  · exact cmpChain_frame _ _ _ _ _ _
  · exact ⟨fun j hj => rfl, rfl, rfl, fun h => rfl⟩

/-- C10: every binary arithmetic, bitwise or comparison operation (and
unary NEG) modifies at most the bytes of the destination slot
`[r, r + width(type_of(r)))`; all other data bytes and the buffer length
are untouched (in particular the operand slots, whenever they are
disjoint from the destination); and when the destination tag is void (0)
or a reference tag (> 5) — i.e. its arithmetic storage width is 0 — the
operation is a silent no-op. -/
theorem C10_frame_effect :
    (∀ (m : Memory) (r a b : Nat),
      (∀ j, (j < r ∨ r + tagWidth (GetType m r) ≤ j) → lbGet (ADD m r a b).data j = lbGet m.data j)
      ∧ (ADD m r a b).data.length = m.data.length
      ∧ (tagWidth (GetType m r) = 0 → ADD m r a b = m))
    ∧ (∀ (m : Memory) (r a b : Nat),
      (∀ j, (j < r ∨ r + tagWidth (GetType m r) ≤ j) → lbGet (SUB m r a b).data j = lbGet m.data j)
      ∧ (SUB m r a b).data.length = m.data.length
      ∧ (tagWidth (GetType m r) = 0 → SUB m r a b = m))
    ∧ (∀ (m : Memory) (r a b : Nat),
      (∀ j, (j < r ∨ r + tagWidth (GetType m r) ≤ j) → lbGet (MUL m r a b).data j = lbGet m.data j)
      ∧ (MUL m r a b).data.length = m.data.length
      ∧ (tagWidth (GetType m r) = 0 → MUL m r a b = m))
    ∧ (∀ (m : Memory) (r a b : Nat),
      (∀ j, (j < r ∨ r + tagWidth (GetType m r) ≤ j) → lbGet (DIV m r a b).data j = lbGet m.data j)
      ∧ (DIV m r a b).data.length = m.data.length
      ∧ (tagWidth (GetType m r) = 0 → DIV m r a b = m))
    ∧ (∀ (m : Memory) (r a b : Nat),
      (∀ j, (j < r ∨ r + tagWidth (GetType m r) ≤ j) → lbGet (REM m r a b).data j = lbGet m.data j)
      ∧ (REM m r a b).data.length = m.data.length
      ∧ (tagWidth (GetType m r) = 0 → REM m r a b = m))
    ∧ (∀ (m : Memory) (r a : Nat),
      (∀ j, (j < r ∨ r + tagWidth (GetType m r) ≤ j) → lbGet (NEG m r a).data j = lbGet m.data j)
      ∧ (NEG m r a).data.length = m.data.length
      ∧ (tagWidth (GetType m r) = 0 → NEG m r a = m))
    ∧ (∀ (m : Memory) (r a b : Nat),
      (∀ j, (j < r ∨ r + tagWidth (GetType m r) ≤ j) → lbGet (SHL m r a b).data j = lbGet m.data j)
      ∧ (SHL m r a b).data.length = m.data.length
      ∧ (tagWidth (GetType m r) = 0 → SHL m r a b = m))
    ∧ (∀ (m : Memory) (r a b : Nat),
      (∀ j, (j < r ∨ r + tagWidth (GetType m r) ≤ j) → lbGet (SHR m r a b).data j = lbGet m.data j)
      ∧ (SHR m r a b).data.length = m.data.length
      ∧ (tagWidth (GetType m r) = 0 → SHR m r a b = m))
    ∧ (∀ (m : Memory) (r a b : Nat),
      (∀ j, (j < r ∨ r + tagWidth (GetType m r) ≤ j) → lbGet (SAR m r a b).data j = lbGet m.data j)
      ∧ (SAR m r a b).data.length = m.data.length
      ∧ (tagWidth (GetType m r) = 0 → SAR m r a b = m))
    ∧ (∀ (m : Memory) (r a b : Nat),
      (∀ j, (j < r ∨ r + tagWidth (GetType m r) ≤ j) → lbGet (AND m r a b).data j = lbGet m.data j)
      ∧ (AND m r a b).data.length = m.data.length
      ∧ (tagWidth (GetType m r) = 0 → AND m r a b = m))
    ∧ (∀ (m : Memory) (r a b : Nat),
      (∀ j, (j < r ∨ r + tagWidth (GetType m r) ≤ j) → lbGet (OR m r a b).data j = lbGet m.data j)
      ∧ (OR m r a b).data.length = m.data.length
      ∧ (tagWidth (GetType m r) = 0 → OR m r a b = m))
    ∧ (∀ (m : Memory) (r a b : Nat),
      (∀ j, (j < r ∨ r + tagWidth (GetType m r) ≤ j) → lbGet (XOR m r a b).data j = lbGet m.data j)
      ∧ (XOR m r a b).data.length = m.data.length
      ∧ (tagWidth (GetType m r) = 0 → XOR m r a b = m))
    ∧ (∀ (m : Memory) (r c a b : Nat),
      (∀ j, (j < r ∨ r + tagWidth (GetType m r) ≤ j) → lbGet (CMP m r c a b).data j = lbGet m.data j)
      ∧ (CMP m r c a b).data.length = m.data.length
      ∧ (tagWidth (GetType m r) = 0 → CMP m r c a b = m)) := by
  refine ⟨fun m r a b => ?_, fun m r a b => ?_, fun m r a b => ?_, fun m r a b => ?_,
    fun m r a b => ?_, fun m r a => ?_, fun m r a b => ?_, fun m r a b => ?_, fun m r a b => ?_,
    fun m r a b => ?_, fun m r a b => ?_, fun m r a b => ?_, fun m r c a b => ?_⟩
  · exact ⟨(ADD_frame m r a b).1, (ADD_frame m r a b).2.1, (ADD_frame m r a b).2.2.2⟩
  · exact ⟨(SUB_frame m r a b).1, (SUB_frame m r a b).2.1, (SUB_frame m r a b).2.2.2⟩
  · exact ⟨(MUL_frame m r a b).1, (MUL_frame m r a b).2.1, (MUL_frame m r a b).2.2.2⟩
  · exact ⟨(DIV_frame m r a b).1, (DIV_frame m r a b).2.1, (DIV_frame m r a b).2.2.2⟩
  · exact ⟨(REM_frame m r a b).1, (REM_frame m r a b).2.1, (REM_frame m r a b).2.2.2⟩
  · exact ⟨(NEG_frame m r a).1, (NEG_frame m r a).2.1, (NEG_frame m r a).2.2.2⟩
  · exact ⟨(SHL_frame m r a b).1, (SHL_frame m r a b).2.1, (SHL_frame m r a b).2.2.2⟩
  · exact ⟨(SHR_frame m r a b).1, (SHR_frame m r a b).2.1, (SHR_frame m r a b).2.2.2⟩
  · exact ⟨(SAR_frame m r a b).1, (SAR_frame m r a b).2.1, (SAR_frame m r a b).2.2.2⟩
  · exact ⟨(AND_frame m r a b).1, (AND_frame m r a b).2.1, (AND_frame m r a b).2.2.2⟩
  · exact ⟨(OR_frame m r a b).1, (OR_frame m r a b).2.1, (OR_frame m r a b).2.2.2⟩
  · exact ⟨(XOR_frame m r a b).1, (XOR_frame m r a b).2.1, (XOR_frame m r a b).2.2.2⟩
  · exact ⟨(CMP_frame m r c a b).1, (CMP_frame m r c a b).2.1, (CMP_frame m r c a b).2.2.2⟩

theorem C10_frame_effect_witness :
    lbGet (ADD memC4 16 0 8).data 0 = lbGet memC4.data 0
    ∧ lbGet (ADD memC4 16 0 8).data 8 = lbGet memC4.data 8
    ∧ ADD memNil 0 0 0 = memNil
    ∧ CMP memNil 0 0 0 0 = memNil :=
  ⟨(C10_frame_effect.1 memC4 16 0 8).1 0 (Or.inl (by decide)),
   (C10_frame_effect.1 memC4 16 0 8).1 8 (Or.inl (by decide)),
   (C10_frame_effect.1 memNil 0 0 0).2.2 (by decide),
   (C10_frame_effect.2.2.2.2.2.2.2.2.2.2.2.2 memNil 0 0 0 0).2.2 (by decide)⟩

theorem WriteData_type (m : Memory) (i : Nat) (bs : List Nat) :
    (WriteData m i bs).type = m.type := rfl

theorem SetPtrData_type (m : Memory) (i p : Nat) : (SetPtrData m i p).type = m.type := rfl

theorem SetByteData_type (m : Memory) (i : Nat) (v : Int) :
    (SetByteData m i v).type = m.type := by
  unfold SetByteData; split_ifs <;> rfl

theorem SetIntData_type (m : Memory) (i : Nat) (v : Int) :
    (SetIntData m i v).type = m.type := by
  unfold SetIntData; split_ifs <;> rfl

theorem SetLongData_type (m : Memory) (i : Nat) (v : Int) :
    (SetLongData m i v).type = m.type := by
  unfold SetLongData; split_ifs <;> rfl

theorem SetFloatData_type (m : Memory) (i : Nat) (v : Frac) :
    (SetFloatData m i v).type = m.type := by
  unfold SetFloatData; split_ifs <;> rfl

theorem SetDoubleData_type (m : Memory) (i : Nat) (v : Frac) :
    (SetDoubleData m i v).type = m.type := by
  unfold SetDoubleData; split_ifs <;> rfl

theorem LOAD_type (m : Memory) (p o : Nat) : (LOAD m p o).type = m.type := rfl

theorem STORE_type (m : Memory) (p o : Nat) : (STORE m p o).type = m.type := rfl

theorem NEW_type (m : Memory) (p n : Nat) : (NEW m p n).type = m.type := rfl

theorem FREE_type (m : Memory) (p : Nat) : (FREE m p).type = m.type := rfl

theorem PTR_type (m : Memory) (i p : Nat) : (PTR m i p).type = m.type := rfl

theorem stepInstr_type (s : VM) : (stepInstr s).mem.type = s.mem.type := by
  unfold stepInstr
  by_cases h0 : lbGet s.code s.pc = 0
  · rw [if_pos h0]
  · rw [if_neg h0]
    by_cases h1 : lbGet s.code s.pc = 1
    · rw [if_pos h1]; exact LOAD_type _ _ _
    · rw [if_neg h1]
      by_cases h2 : lbGet s.code s.pc = 2
      · rw [if_pos h2]; rfl
      · rw [if_neg h2]
        by_cases h3 : lbGet s.code s.pc = 3
        · rw [if_pos h3]; rfl
        · rw [if_neg h3]
          by_cases h4 : lbGet s.code s.pc = 4
          · rw [if_pos h4]; rfl
          · rw [if_neg h4]
            by_cases h5 : lbGet s.code s.pc = 5
            · rw [if_pos h5]; exact PTR_type _ _ _
            · rw [if_neg h5]
              by_cases h6 : lbGet s.code s.pc = 6
              · rw [if_pos h6]; exact (ADD_frame _ _ _ _).2.2.1
              · rw [if_neg h6]
                by_cases h7 : lbGet s.code s.pc = 7
                · rw [if_pos h7]; exact (SUB_frame _ _ _ _).2.2.1
                · rw [if_neg h7]
                  by_cases h8 : lbGet s.code s.pc = 8
                  · rw [if_pos h8]; exact (MUL_frame _ _ _ _).2.2.1
                  · rw [if_neg h8]
                    by_cases h9 : lbGet s.code s.pc = 9
                    · rw [if_pos h9]; exact (DIV_frame _ _ _ _).2.2.1
                    · rw [if_neg h9]
                      by_cases h10 : lbGet s.code s.pc = 10
                      · rw [if_pos h10]; exact (REM_frame _ _ _ _).2.2.1
                      · rw [if_neg h10]
                        by_cases h11 : lbGet s.code s.pc = 11
                        · rw [if_pos h11]; exact (NEG_frame _ _ _).2.2.1
                        · rw [if_neg h11]
                          by_cases h12 : lbGet s.code s.pc = 12
                          · rw [if_pos h12]; exact (SHL_frame _ _ _ _).2.2.1
                          · rw [if_neg h12]
                            by_cases h13 : lbGet s.code s.pc = 13
                            · rw [if_pos h13]; exact (SHR_frame _ _ _ _).2.2.1
                            · rw [if_neg h13]
                              by_cases h14 : lbGet s.code s.pc = 14
                              · rw [if_pos h14]; exact (SAR_frame _ _ _ _).2.2.1
                              · rw [if_neg h14]
                                by_cases h15 : lbGet s.code s.pc = 15
                                · rw [if_pos h15]
                                · rw [if_neg h15]
                                  by_cases h16 : lbGet s.code s.pc = 16
                                  · rw [if_pos h16]; exact (AND_frame _ _ _ _).2.2.1
                                  · rw [if_neg h16]
                                    by_cases h17 : lbGet s.code s.pc = 17
                                    · rw [if_pos h17]; exact (OR_frame _ _ _ _).2.2.1
                                    · rw [if_neg h17]
                                      by_cases h18 : lbGet s.code s.pc = 18
                                      · rw [if_pos h18]; exact (XOR_frame _ _ _ _).2.2.1
                                      · rw [if_neg h18]
                                        by_cases h19 : lbGet s.code s.pc = 19
                                        · rw [if_pos h19]; exact (CMP_frame _ _ _ _ _).2.2.1
                                        · rw [if_neg h19]
                                          by_cases h20 : lbGet s.code s.pc = 20
                                          · rw [if_pos h20]; exact SetIntData_type _ _ _
                                          · rw [if_neg h20]
                                            by_cases h21 : lbGet s.code s.pc = 21
                                            · rw [if_pos h21]
                                            · rw [if_neg h21]
                                              by_cases h22 : lbGet s.code s.pc = 22
                                              · rw [if_pos h22]
                                              · rw [if_neg h22]
                                                by_cases h23 : lbGet s.code s.pc = 23
                                                · rw [if_pos h23]
                                                · rw [if_neg h23]
                                                  by_cases h24 : lbGet s.code s.pc = 255
                                                  · rw [if_pos h24]
                                                  · rw [if_neg h24]

theorem runLoop_type (n : Nat) (s f : VM) (h : runLoop n s = some f) :
    f.mem.type = s.mem.type := by
  induction n generalizing s with
  | zero => exact absurd h (by simp [runLoop])
  | succ k ih =>
    unfold runLoop at h
    split_ifs at h with hh
    · cases h; rfl
    · rw [ih (stepInstr s) h, stepInstr_type]

/-- C9: the type-tag array is immutable during execution — `WriteData`,
every typed `Set*Data` store and every interpreter step mutate only the
`data` buffer, so `type_of(i)` is unchanged by every instruction and by
every terminating run. -/
theorem C9_type_array_immutable :
    (∀ (m : Memory) (i : Nat) (bs : List Nat), (WriteData m i bs).type = m.type)
    ∧ (∀ (m : Memory) (i p : Nat), (SetPtrData m i p).type = m.type)
    ∧ (∀ (m : Memory) (i : Nat) (v : Int), (SetByteData m i v).type = m.type)
    ∧ (∀ (m : Memory) (i : Nat) (v : Int), (SetIntData m i v).type = m.type)
    ∧ (∀ (m : Memory) (i : Nat) (v : Int), (SetLongData m i v).type = m.type)
    ∧ (∀ (m : Memory) (i : Nat) (v : Frac), (SetFloatData m i v).type = m.type)
    ∧ (∀ (m : Memory) (i : Nat) (v : Frac), (SetDoubleData m i v).type = m.type)
    ∧ (∀ (m : Memory) (i : Nat), ∀ s : VM, (stepInstr s).mem.type = s.mem.type
        ∧ GetType (stepInstr s).mem i = GetType s.mem i)
    ∧ (∀ (n : Nat) (s f : VM), runLoop n s = some f → f.mem.type = s.mem.type) := by
  refine ⟨WriteData_type, SetPtrData_type, SetByteData_type, SetIntData_type, SetLongData_type,
    SetFloatData_type, SetDoubleData_type, fun m i s => ⟨stepInstr_type s, ?_⟩, runLoop_type⟩
  unfold GetType
  rw [stepInstr_type s]

theorem C9_type_array_immutable_witness :
    (stepInstr vmC6).mem.type = vmC6.mem.type
    ∧ GetType (stepInstr vmC6).mem 0 = GetType vmC6.mem 0
    ∧ ((runLoop 5 vmC6 = some { mem := memGoto, code := vmC6.code, pc := 4 })
        ∧ ({ mem := memGoto, code := vmC6.code, pc := 4 } : VM).mem.type = vmC6.mem.type) :=
  ⟨(C9_type_array_immutable.2.2.2.2.2.2.2.1 memGoto 0 vmC6).1,
   (C9_type_array_immutable.2.2.2.2.2.2.2.1 memGoto 0 vmC6).2,
   by decide,
   C9_type_array_immutable.2.2.2.2.2.2.2.2 5 vmC6 _ (by decide)⟩

/-- C1: at the failing input (an IF with a nonzero byte condition, a
long `+9` in the true-offset slot and a long `+2` in the false-offset
slot) the `IF` helper does compute `base + long(true_off) = 9`, but
`main` never assigns the returned pointer, so the interpreter's PC just
moves past the three operands to 4 instead of being set to
`PC + long(true_off) = 9`, and the memory is unchanged. -/
theorem C1_if_result_discarded :
    GetByteData vmC1.mem 0 = 1
    ∧ IF 0 vmC1.mem 0 8 16 = 9
    ∧ ((vmC1.pc : Int) + GetLongData vmC1.mem 8 = 9)
    ∧ stepInstr vmC1 = { vmC1 with pc := 4 }
    ∧ (stepInstr vmC1).pc ≠ 9
    ∧ (stepInstr vmC1).mem = vmC1.mem := by
  refine ⟨by decide, by decide, by decide, by decide, by decide, by decide⟩

/-- C2 counterexample: executing RETURN does not terminate execution
(after RETURN at pc 0 the machine is not halted and the loop executes
the next byte), and the unrecognised opcode `0x18` leaves the PC
unadvanced, so the loop never finishes. -/
theorem C2_counterexample_return_and_unknown :
    (lbGet vmRet.code 0 = 0x15
      ∧ ¬ halted (stepInstr vmRet)
      ∧ runLoop 3 vmRet = some { vmRet with pc := 2 })
    ∧ (stepInstr vmUnknown = vmUnknown
      ∧ ¬ halted vmUnknown
      ∧ runLoop 50 vmUnknown = none) := by
  refine ⟨⟨by decide, by decide, by decide⟩, ⟨by decide, by decide, by decide⟩⟩

/-- C2 (amended): the loop exits exactly when the PC reaches the end of
the code segment — every normal completion ends with `pc ≥ |code|`;
RETURN is a no-op that merely advances the PC by one and execution
continues; and a byte that is not a recognised opcode leaves the state
unchanged, so the loop never terminates on it. -/
theorem C2_termination_amended :
    (∀ (n : Nat) (s f : VM), runLoop n s = some f → f.code.length ≤ f.pc)
    ∧ (∀ s : VM, lbGet s.code s.pc = 0x15 → stepInstr s = { s with pc := s.pc + 1 })
    ∧ (∀ s : VM, ¬ knownOpcode (lbGet s.code s.pc) →
        stepInstr s = s ∧ ∀ n, s.pc < s.code.length → runLoop n s = none) := by
  refine ⟨?_, ?_, ?_⟩
  · intro n
    induction n with
    | zero => intro s f h; exact absurd h (by simp [runLoop])
    | succ k ih =>
      intro s f h
      unfold runLoop at h
      split_ifs at h with hh
      · cases h; exact hh
      · exact ih (stepInstr s) f h
  · intro s hop
    unfold stepInstr
    rw [hop]
    norm_num
  · intro s hop
    obtain ⟨h1, h2⟩ := not_or.mp hop
    have hstep : stepInstr s = s := by
      unfold stepInstr
      iterate 25 rw [if_neg (by omega)]
    refine ⟨hstep, ?_⟩
    intro n
    induction n with
    | zero => intro _; rfl
    | succ k ih =>
      intro hpc
      unfold runLoop
      rw [if_neg (by omega), hstep]
      exact ih hpc

theorem C2_termination_amended_witness :
    ((runLoop 3 vmRet = some { vmRet with pc := 2 })
        ∧ ({ vmRet with pc := 2 } : VM).code.length ≤ ({ vmRet with pc := 2 } : VM).pc)
    ∧ stepInstr vmRet = { vmRet with pc := 1 }
    ∧ stepInstr vmUnknown = vmUnknown
    ∧ runLoop 7 vmUnknown = none :=
  ⟨⟨by decide, C2_termination_amended.1 3 vmRet _ (by decide)⟩,
   C2_termination_amended.2.1 vmRet (by decide),
   (C2_termination_amended.2.2 vmUnknown (by decide)).1,
   (C2_termination_amended.2.2 vmUnknown (by decide)).2 7 (by decide)⟩

/-- C6 counterexample: for a GOTO that does not sit at offset 0 of the
code segment the claim's formula fails — with the GOTO at offset 1 and
slot 0 holding long `+2`, the claim predicts `PC = 1 + 2 = 3` but the
interpreter computes the target from `run_code` (the code start) and
sets `PC = 0 + 2 = 2`. -/
theorem C6_goto_counterexample :
    lbGet vmC6ctr.code 1 = 0x16
    ∧ vmC6ctr.pc = 1
    ∧ ((vmC6ctr.pc : Int) + GetLongData vmC6ctr.mem 0).toNat = 3
    ∧ (stepInstr vmC6ctr).pc = 2
    ∧ (2 : Nat) ≠ 3 := by
  refine ⟨by decide, by decide, by decide, by decide, by decide⟩

/-- C6 (amended): a GOTO sets the PC to `code_start + long(off)` — the C
passes `run_code`, the base of the code segment, so the jump is
absolute, not PC-relative; in the concrete program
`16 00 00 15` with slot 0 = long `+2`, the jump lands on the NOP at
offset 2, execution then reaches the RETURN at offset 3 and the loop
exits with `pc = 4`. -/
theorem C6_goto_absolute (s : VM) (hop : lbGet s.code s.pc = 0x16) :
    stepInstr s = { s with pc := (GOTO 0 s.mem (decodeOp s.code (s.pc + 1)).1).toNat }
    ∧ (stepInstr vmC6).pc = 2
    ∧ (stepInstr (stepInstr vmC6)).pc = 3
    ∧ lbGet vmC6.code 3 = 0x15
    ∧ runLoop 5 vmC6 = some { vmC6 with pc := 4 } := by
  refine ⟨?_, by decide, by decide, by decide, by decide⟩
  unfold stepInstr
  rw [hop]
  norm_num

theorem C6_goto_absolute_witness :
    stepInstr vmC6 = { vmC6 with pc := (GOTO 0 vmC6.mem (decodeOp vmC6.code (vmC6.pc + 1)).1).toNat }
    ∧ (stepInstr vmC6).pc = 2
    ∧ (stepInstr (stepInstr vmC6)).pc = 3
    ∧ lbGet vmC6.code 3 = 0x15
    ∧ runLoop 5 vmC6 = some { vmC6 with pc := 4 } :=
  C6_goto_absolute vmC6 (by decide)

/-- C7: the loader skips `memory_size / 2` — integer (floor) division —
type bytes, not `ceil(memory_size / 2)`.  On the odd-sized image
`fileC7` (`memory_size = 1`) the code segment returned by the loader
starts at file offset 17 and still contains the packed type byte
`0xBB`; the claim's `16 + memory_size + ceil(memory_size / 2)` split
would start it at offset 18. -/
theorem C7_loader_floor_split :
    loadImage fileC7 = some ({ type := [0xBB, 0xCC], data := [0xAA], size := 1 }, [0xBB, 0xCC])
    ∧ fileC7.drop (16 + 1 + 1 / 2) = [0xBB, 0xCC]
    ∧ fileC7.drop (16 + 1 + (1 + 1) / 2) = [0xCC]
    ∧ ([0xBB, 0xCC] : List Nat) ≠ [0xCC] := by
  refine ⟨by decide, by decide, by decide, by decide⟩

/-- C8: `GET_SIZE` maps the tags 1–4 to the widths 1, 4, 8, 4 as the
claim states, but the duplicated `(x) == 0x02` arm makes `GET_SIZE(5) =
0`, so a LOAD whose destination is a double slot copies 0 bytes and
leaves the memory unchanged instead of copying 8 bytes.  The last
conjunct exhibits the LOAD data path: the copied width is always
`GET_SIZE(type_of(dst))`. -/
theorem C8_load_width_tag5 :
    GET_SIZE 1 = 1 ∧ GET_SIZE 2 = 4 ∧ GET_SIZE 3 = 8 ∧ GET_SIZE 4 = 4
    ∧ GET_SIZE 5 = 0
    ∧ GetType memC8 8 = 5
    ∧ LOAD memC8 0 8 = memC8
    ∧ lbGet (LOAD memC8 0 8).data 8 = 0
    ∧ (∀ (m : Memory) (src dst : Nat),
        (LOAD m src dst).data = writeBytes m.data dst (readBytes m.data src (GET_SIZE (GetType m dst)))) := by
  refine ⟨by decide, by decide, by decide, by decide, by decide, by decide, by decide, by decide,
    fun m src dst => rfl⟩

